import Mathlib

/-
Verification development for the page-state navigator of the
netsuite_automate repository (src/src/netsuite_navigator.py).

The navigator is embedded shallowly:
  * `classify` embeds the URL-pattern matching of
    `NetsuiteNavigator.get_current_page` as a pure function of a URL string;
  * `wait_for_page_load` embeds the polling loop of
    `NetsuiteNavigator.wait_for_page_load` over an explicit URL-sampling
    oracle (one sample per one-second poll; a `none` sample models the
    `except` branch where reading `self._current_page.url` raised);
  * the navigation state machine (`go_to_page`, `navigate_from_to`, and the
    per-state handlers) is embedded as an interpreter over an abstract
    browser-driver environment.  The driver itself is not repository code:
    it is the external collaborator of spec section 6 (`listOpenPages` is
    ordered most-recent-last, `bringToFront` makes a handle most recent,
    clicks/navigations/waits may fail), so driver effects are supplied by an
    environment `Env` that maps each attempted driver action to `some`
    successor world or `none` (the action raised).  Python recursion is
    made total with an explicit fuel argument; fuel exhaustion is a model
    artifact reported as a distinguished error.
-/

namespace NetsuiteNav

/-- Boolean test that the first char list is an initial segment of the second. -/
def startsWithChars : List Char → List Char → Bool
  | [], _ => true
  | _ :: _, [] => false
  | a :: as, b :: bs => a == b && startsWithChars as bs

/-- Boolean test that `pat` occurs contiguously inside the second list. -/
def hasSubChars (pat : List Char) : List Char → Bool
  | [] => startsWithChars pat []
  | c :: rest => startsWithChars pat (c :: rest) || hasSubChars pat rest

/-- Embedding of Python's `pat in hay` substring operator on strings. -/
def strIn (pat hay : String) : Bool := hasSubChars pat.toList hay.toList

/-- Enumeration of page states, from class `PageState` of the source. -/
inductive PageState where
  | LOGIN_PAGE
  | QT_HOME_PAGE
  | NETSUITE_HOME_PAGE
  | TIME_TRACKING_PAGE
  | WEEKLY_SHEET_PAGE
  | UNKNOWN
deriving DecidableEq, Repr

/-- URL pattern for the login page (module constant of the source). -/
def login_page_url_pattern : String := "login.microsoftonline.com"

/-- URL pattern for the NetSuite home page (module constant of the source). -/
def netsuite_home_url_pattern : String := "app.netsuite.com/app/center/card"

/-- URL pattern for the time-tracking page (module constant of the source). -/
def time_tracking_url_pattern : String := "app.netsuite.com/app/accounting/transactions/timebill"

/-- URL pattern for the weekly-sheet page (module constant of the source). -/
def weekly_sheet_url_pattern : String := "app.netsuite.com/app/accounting/transactions/time/weeklytimebill"

/-- URL pattern for the Qualitest portal home page (module constant of the source). -/
def qt_home_url_pattern : String := "ibase1.sharepoint.com/sites/hub/il"

/-- URL the navigator opens to reach the portal (module constant of the source). -/
def qt_home_target_url : String := "https://ibase1.sharepoint.com/sites/hub/il"

/-- URL classification: the if/elif chain of `get_current_page`
(src/src/netsuite_navigator.py lines 66-81) as a pure function of the URL. -/
def classify (url : String) : PageState :=
  if strIn login_page_url_pattern url then .LOGIN_PAGE
  else if strIn qt_home_url_pattern url then .QT_HOME_PAGE
  else if strIn netsuite_home_url_pattern url then .NETSUITE_HOME_PAGE
  else if strIn time_tracking_url_pattern url then .TIME_TRACKING_PAGE
  else if strIn weekly_sheet_url_pattern url then .WEEKLY_SHEET_PAGE
  else .UNKNOWN

/-- The spec's Pattern Table: state patterns in the fixed precedence order
login, portal-home, app-home, time-tracking, weekly-sheet. -/
def urlPatternTable : List (String × PageState) :=
  [(login_page_url_pattern, .LOGIN_PAGE),
   (qt_home_url_pattern, .QT_HOME_PAGE),
   (netsuite_home_url_pattern, .NETSUITE_HOME_PAGE),
   (time_tracking_url_pattern, .TIME_TRACKING_PAGE),
   (weekly_sheet_url_pattern, .WEEKLY_SHEET_PAGE)]

/-- Classification as the spec words it: first pattern of the ordered table
occurring in the URL wins; `UNKNOWN` when none occurs. -/
def specClassify (url : String) : PageState :=
  match urlPatternTable.find? (fun e => strIn e.1 url) with
  | some e => e.2
  | none => .UNKNOWN

/-- Outcomes of one call to `wait_for_page_load`:  `success` is a normal
return, `timeoutErr` the `TimeoutError` of line 370, `unboundLocalErr` the
Python `UnboundLocalError` raised at line 369 when the loop variable
`url_string_to_wait_for` was never bound, `urlReadErr` an exception raised
by the final fresh read of `self._current_page.url` at line 369. -/
inductive WaitOutcome where
  | success
  | timeoutErr (pat : String)
  | unboundLocalErr
  | urlReadErr
deriving DecidableEq, Repr

/-- The final check after the polling loop (source lines 369-370): evaluate
the loop variable (raising if never bound), take one fresh URL sample, and
test it against that single pattern only. -/
def waitFinalCheck (urlAt : Nat → Option String) (t : Nat) :
    Option String → WaitOutcome
  | none => .unboundLocalErr
  | some pat =>
    match urlAt t with
    | none => .urlReadErr
    | some url => if strIn pat url then .success else .timeoutErr pat

/-- The polling loop of `wait_for_page_load` (source lines 351-367).
`urlAt i` is the URL read at the i-th one-second poll (`none` when the read
raised, which the source retries in its `except` branch).  `remaining` is
the number of loop iterations still allowed (`timeout_seconds - time_counter`:
the source increments `time_counter` by exactly one per iteration, so the
loop runs exactly that many times unless it returns), `t` the current poll
index and `lastVar` the current value of the Python loop variable
`url_string_to_wait_for` (`none` = never bound). -/
def waitLoop (urlAt : Nat → Option String) (pats : List String) :
    Nat → Nat → Option String → WaitOutcome
  | 0, t, lastVar => waitFinalCheck urlAt t lastVar
  | remaining + 1, t, lastVar =>
    match urlAt t with
    | none => waitLoop urlAt pats remaining (t + 1) lastVar
    | some url =>
      if pats.any (fun p => strIn p url) then .success
      else
        waitLoop urlAt pats remaining (t + 1)
          (match pats.getLast? with
           | some q => some q
           | none => lastVar)

/-- Embedding of `NetsuiteNavigator.wait_for_page_load` (source lines
345-370) called with a list of patterns (the source wraps a single string
into a one-element list). -/
def wait_for_page_load (urlAt : Nat → Option String) (pats : List String)
    (timeoutSeconds : Nat) : WaitOutcome :=
  waitLoop urlAt pats timeoutSeconds 0 none

/-- A browser page handle: an identity and the URL it currently shows. -/
structure Pg where
  id : Nat
  url : String
deriving DecidableEq, Repr

/-- The browser context's set of open pages, ordered most-recent-last
(spec section 6: `listOpenPages() -> ordered sequence, most-recent last`). -/
structure World where
  pages : List Pg
deriving DecidableEq, Repr

/-- The navigator's mutable session fields (`page_qtest_portal`,
`page_netsuite`, `_current_page` of class `NetsuiteNavigator`), stored as
page ids. -/
structure NavSession where
  page_qtest_portal : Option Nat := none
  page_netsuite : Option Nat := none
  current_page : Option Nat := none
deriving DecidableEq, Repr

/-- Driver actions the navigator can attempt, as recorded in the trace. -/
inductive DriverAction where
  | click (pageId : Nat) (role : String) (name : String)
  | fill (pageId : Nat) (role : String) (name : String) (text : String)
  | navigate (pageId : Nat) (url : String)
  | newPage
  | awaitPopup
  | waitForLoadState (pageId : Nat) (state : String)
  | waitForUrlChange (pageId : Option Nat) (pats : List String) (timeoutSeconds : Nat)
  | waitForUrlLeave (pageId : Option Nat) (pat : String) (timeoutMs : Nat)
  | bringToFront (pageId : Nat)
deriving DecidableEq, Repr

/-- Errors raised inside navigation: driver wait timeouts, locator failures,
Python `AttributeError` on a `None` page reference, the `assert` of source
line 145, and the model-artifact fuel bound on recursion. -/
inductive NavErr where
  | navTimeout
  | elementNotFound
  | noneTypeError
  | assertionError
  | outOfFuel
deriving DecidableEq, Repr

/-- Interpreter state: the browser world, the navigator session, the list of
driver actions attempted so far, and a step counter used to index the
environment. -/
structure St where
  world : World
  sess : NavSession
  trace : List DriverAction
  tick : Nat
deriving DecidableEq, Repr

/-- The driver environment: for each step index, pre-world and attempted
action it yields `some` successor world (the action completed) or `none`
(the action raised). -/
def Env : Type := Nat → World → DriverAction → Option World

/-- Result of a navigator computation: an exception or a value, together
with the state reached (side effects persist when an exception propagates,
as in Python). -/
abbrev NavRes (α : Type) := Except NavErr α × St

/-- Perform one driver action through the environment, recording it in the
trace; a `none` response raises `err`. -/
def driverCall (env : Env) (err : NavErr) (a : DriverAction) (st : St) :
    NavRes Unit :=
  match env st.tick st.world a with
  | some w' => (.ok (), { st with world := w', trace := st.trace ++ [a], tick := st.tick + 1 })
  | none => (.error err, { st with trace := st.trace ++ [a], tick := st.tick + 1 })

/-- Classification of the active page of a world: the most-recent page's URL
through `classify`; `UNKNOWN` when no page is open (source lines 56-58). -/
def classifyWorld (w : World) : PageState :=
  match w.pages.getLast? with
  | none => .UNKNOWN
  | some p => classify p.url

/-- Embedding of `NetsuiteNavigator.get_current_page` (source lines 48-81):
classify the most-recently-active page and update the session references as
the source's branches do.  Reading pages and URLs is not a driver action, so
nothing is traced. -/
def get_current_page (st : St) : PageState × St :=
  match st.world.pages.getLast? with
  | none => (.UNKNOWN, st)
  | some p =>
    let st1 := { st with sess := { st.sess with current_page := some p.id } }
    if strIn login_page_url_pattern p.url then (.LOGIN_PAGE, st1)
    else if strIn qt_home_url_pattern p.url then
      (.QT_HOME_PAGE, { st1 with sess := { st1.sess with page_qtest_portal := some p.id } })
    else if strIn netsuite_home_url_pattern p.url then
      (.NETSUITE_HOME_PAGE, { st1 with sess := { st1.sess with page_netsuite := some p.id } })
    else if strIn time_tracking_url_pattern p.url then
      (.TIME_TRACKING_PAGE, { st1 with sess := { st1.sess with page_netsuite := some p.id } })
    else if strIn weekly_sheet_url_pattern p.url then
      (.WEEKLY_SHEET_PAGE, { st1 with sess := { st1.sess with page_netsuite := some p.id } })
    else (.UNKNOWN, st1)

/-- The session update performed by one `get_current_page` call, stated as a
function of the classification (used to characterize `get_current_page`). -/
def classifySessionUpdate (w : World) (s : NavSession) : NavSession :=
  match w.pages.getLast? with
  | none => s
  | some p =>
    let s1 := { s with current_page := some p.id }
    match classify p.url with
    | .QT_HOME_PAGE => { s1 with page_qtest_portal := some p.id }
    | .NETSUITE_HOME_PAGE => { s1 with page_netsuite := some p.id }
    | .TIME_TRACKING_PAGE => { s1 with page_netsuite := some p.id }
    | .WEEKLY_SHEET_PAGE => { s1 with page_netsuite := some p.id }
    | _ => s1

/-- One hop-level wait (`self.wait_for_page_load(...)` call sites): at the
navigation level the Waiter is a single driver action on the navigator's
`_current_page`, whose outcome the environment decides; a `none` outcome is
the `TimeoutError` the source's waiter raises. -/
def waitForPageLoadC (env : Env) (pats : List String) (timeoutSeconds : Nat)
    (st : St) : NavRes Unit :=
  driverCall env .navTimeout (.waitForUrlChange st.sess.current_page pats timeoutSeconds) st

/-- A `get_by_role(...).click()` on an optional page reference; a `none`
reference raises like Python's `AttributeError` before any driver call. -/
def clickC (env : Env) (pid : Option Nat) (role nm : String) (st : St) :
    NavRes Unit :=
  match pid with
  | none => (.error .noneTypeError, st)
  | some p => driverCall env .elementNotFound (.click p role nm) st

/-- A `get_by_role(...).fill(text)` on an optional page reference. -/
def fillC (env : Env) (pid : Option Nat) (role nm text : String) (st : St) :
    NavRes Unit :=
  match pid with
  | none => (.error .noneTypeError, st)
  | some p => driverCall env .elementNotFound (.fill p role nm text) st

/-- A `page.goto(url)` driver navigation. -/
def navigateC (env : Env) (pid : Nat) (url : String) (st : St) : NavRes Unit :=
  driverCall env .navTimeout (.navigate pid url) st

/-- A fresh page id for `context.new_page()`. -/
def freshId (w : World) : Nat := (w.pages.map Pg.id).foldr Nat.max 0 + 1

/-- `context.new_page()`: appends a fresh blank page, which becomes the
most-recent page (spec section 6 ordering). -/
def newPageC (st : St) : Nat × St :=
  let pid := freshId st.world
  (pid,
   { st with
     world := ⟨st.world.pages ++ [⟨pid, "about:blank"⟩]⟩,
     trace := st.trace ++ [.newPage],
     tick := st.tick + 1 })

/-- `context.wait_for_event("page")`: the environment yields the world with
the popup opened; the popup is the most-recent page of that world. -/
def awaitPopupC (env : Env) (st : St) : NavRes Nat :=
  match env st.tick st.world .awaitPopup with
  | some w' =>
    (.ok (((w'.pages.getLast?).map Pg.id).getD 0),
     { st with world := w', trace := st.trace ++ [.awaitPopup], tick := st.tick + 1 })
  | none =>
    (.error .navTimeout,
     { st with trace := st.trace ++ [.awaitPopup], tick := st.tick + 1 })

/-- `page.wait_for_load_state("networkidle")` on the popup. -/
def waitForLoadStateC (env : Env) (pid : Nat) (st : St) : NavRes Unit :=
  driverCall env .navTimeout (.waitForLoadState pid "networkidle") st

/-- `page.bring_to_front()`: the page becomes the most-recent open page
(spec section 6: `bringToFront(handle)` with most-recent-last ordering). -/
def bringToFrontC (pid : Nat) (st : St) : NavRes Unit :=
  (.ok (),
   { st with
     world := ⟨st.world.pages.filter (fun p => p.id != pid) ++
               st.world.pages.filter (fun p => p.id == pid)⟩,
     trace := st.trace ++ [.bringToFront pid],
     tick := st.tick + 1 })

/-- The body of `NetsuiteNavigator._navigate_to_qt_home` from line 128 on,
once the page to use is chosen and recorded as `_current_page`: navigate it
to the portal URL, wait for portal-home or login, and if login, wait for
the user to authenticate (source lines 128-146). -/
def navigate_to_qt_home_from (env : Env) (pid : Nat) (st2 : St) : NavRes Bool :=
  match navigateC env pid qt_home_target_url st2 with
  | (.error e, st3) => (.error e, st3)
  | (.ok _, st3) =>
    match waitForPageLoadC env [qt_home_url_pattern, login_page_url_pattern] 10 st3 with
    | (.error e, st4) => (.error e, st4)
    | (.ok _, st4) =>
      let (cur, st5) := get_current_page st4
      if cur = .LOGIN_PAGE then
        match waitForPageLoadC env [qt_home_url_pattern] 300 st5 with
        | (.error e, st6) => (.error e, st6)
        | (.ok _, st6) =>
          let (cur2, st7) := get_current_page st6
          if cur2 ≠ .QT_HOME_PAGE then (.ok false, st7) else (.ok true, st7)
      else
        if cur = .QT_HOME_PAGE then (.ok true, st5)
        else (.error .assertionError, st5)

/-- Embedding of `NetsuiteNavigator._navigate_to_qt_home` (source lines
105-146): use the first open page, or create one if none exist, record it
as `_current_page`, and resolve through the portal URL.  Python's implicit
`return None` on the success paths is modelled as `true` (the caller
discards the value either way); `return False` at line 142 is `false`. -/
def navigate_to_qt_home (env : Env) (st : St) : NavRes Bool :=
  let (pid, st1) :=
    match st.world.pages.head? with
    | none => newPageC st
    | some p => (p.id, st)
  navigate_to_qt_home_from env pid
    { st1 with sess := { st1.sess with current_page := some pid } }

/-- Embedding of `NetsuiteNavigator._go_to_netsuite_from_qt_home` (source
lines 237-266); the `try/except` converts every exception to `False`. -/
def go_to_netsuite_from_qt_home (env : Env) (st : St) : NavRes Bool :=
  match clickC env st.sess.page_qtest_portal "button" "App launcher" st with
  | (.error _, st1) => (.ok false, st1)
  | (.ok _, st1) =>
  match clickC env st1.sess.page_qtest_portal "searchbox" "Find Microsoft 365 apps" st1 with
  | (.error _, st2) => (.ok false, st2)
  | (.ok _, st2) =>
  match fillC env st2.sess.page_qtest_portal "searchbox" "Search all your Microsoft 365" "netsuite" st2 with
  | (.error _, st3) => (.ok false, st3)
  | (.ok _, st3) =>
  match clickC env st3.sess.page_qtest_portal "listitem" "Netsuite will be opened in new tab" st3 with
  | (.error _, st4) => (.ok false, st4)
  | (.ok _, st4) =>
  match awaitPopupC env st4 with
  | (.error _, st5) => (.ok false, st5)
  | (.ok popupId, st5) =>
  let st6 := { st5 with sess := { st5.sess with page_netsuite := some popupId } }
  match waitForLoadStateC env popupId st6 with
  | (.error _, st7) => (.ok false, st7)
  | (.ok _, st7) =>
  let (cur, st8) := get_current_page st7
  (.ok (if cur = .NETSUITE_HOME_PAGE then true else false), st8)

/-- Embedding of `NetsuiteNavigator._navigate_from_netsuite_home` (source
lines 268-296); the `try/except` converts exceptions in either branch to
`False`, and targets with no branch fall through to `False`. -/
def navigate_from_netsuite_home (env : Env) (target : PageState) (st : St) :
    NavRes Bool :=
  if target = .NETSUITE_HOME_PAGE then (.ok true, st)
  else if target = .TIME_TRACKING_PAGE then
    match clickC env st.sess.page_netsuite "link" "Track Time" st with
    | (.error _, st1) => (.ok false, st1)
    | (.ok _, st1) =>
      match waitForPageLoadC env [time_tracking_url_pattern] 10 st1 with
      | (.error _, st2) => (.ok false, st2)
      | (.ok _, st2) =>
        let (cur, st3) := get_current_page st2
        (.ok (if cur = .TIME_TRACKING_PAGE then true else false), st3)
  else if target = .WEEKLY_SHEET_PAGE then
    match clickC env st.sess.page_netsuite "link" "Weekly Timesheet" st with
    | (.error _, st1) => (.ok false, st1)
    | (.ok _, st1) =>
      match waitForPageLoadC env [weekly_sheet_url_pattern] 10 st1 with
      | (.error _, st2) => (.ok false, st2)
      | (.ok _, st2) =>
        let (cur, st3) := get_current_page st2
        (.ok (if cur = .WEEKLY_SHEET_PAGE then true else false), st3)
  else (.ok false, st)

/-- Embedding of `NetsuiteNavigator._navigate_from_qt_home` (source lines
209-235).  `_go_to_netsuite_from_qt_home` never raises, but the model is
total, so an error case is matched and propagated. -/
def navigate_from_qt_home (env : Env) (target : PageState) (st : St) :
    NavRes Bool :=
  if target = .QT_HOME_PAGE then (.ok true, st)
  else if target = .NETSUITE_HOME_PAGE ∨ target = .TIME_TRACKING_PAGE ∨
      target = .WEEKLY_SHEET_PAGE then
    match go_to_netsuite_from_qt_home env st with
    | (.error e, st1) => (.error e, st1)
    | (.ok false, st1) => (.ok false, st1)
    | (.ok true, st1) =>
      if target = .NETSUITE_HOME_PAGE then (.ok true, st1)
      else navigate_from_netsuite_home env target st1
  else (.ok false, st)

/-- Embedding of `NetsuiteNavigator._navigate_from_netsuite_subpage` (source
lines 298-343).  The recursive self-call of line 340 always targets
NetSuite home, which never recurses further; the fuel match makes that
recursion structural. -/
def navigate_from_netsuite_subpage (env : Env) :
    Nat → PageState → St → NavRes Bool
  | fuel, target, st =>
    let (cur, st1) := get_current_page st
    if cur = target then (.ok true, st1)
    else if target = .QT_HOME_PAGE then
      match st1.sess.page_qtest_portal with
      | some pid =>
        match bringToFrontC pid st1 with
        | (_, st2) => (.ok true, st2)
      | none => (.ok false, st1)
    else if target = .NETSUITE_HOME_PAGE then
      match clickC env st1.sess.page_netsuite "link" "Home" st1 with
      | (.error _, st2) => (.ok false, st2)
      | (.ok _, st2) =>
        match waitForPageLoadC env [netsuite_home_url_pattern] 10 st2 with
        | (.error _, st3) => (.ok false, st3)
        | (.ok _, st3) => (.ok true, st3)
    else if target = .TIME_TRACKING_PAGE ∨ target = .WEEKLY_SHEET_PAGE then
      match fuel with
      | 0 => (.error .outOfFuel, st1)
      | fuel' + 1 =>
        match navigate_from_netsuite_subpage env fuel' .NETSUITE_HOME_PAGE st1 with
        | (.error e, st2) => (.error e, st2)
        | (.ok true, st2) => navigate_from_netsuite_home env target st2
        | (.ok false, st2) => (.ok false, st2)
    else (.ok false, st1)

/-- The tail of `_handle_login_navigation` after the login wait (source
lines 198-203): reclassify, stop if already at the target, otherwise
continue through the supplied recursive `_navigate_from_to`.  Python
returns the page object from the recursive call; its truthiness is
`Option.isSome` and the caller discards it. -/
def loginContinuationWith
    (navRec : PageState → PageState → St → NavRes (Option Nat))
    (target : PageState) (st : St) : NavRes Bool :=
  let (newState, st1) := get_current_page st
  if newState = target then (.ok true, st1)
  else
    match navRec newState target st1 with
    | (.error e, st2) => (.error e, st2)
    | (.ok p, st2) => (.ok p.isSome, st2)

/-- Embedding of `NetsuiteNavigator._handle_login_navigation` (source lines
178-207), parameterized by the recursive `_navigate_from_to`: wait up to
300000 ms for the URL to leave the login pattern, then run the
continuation; the `try/except` turns any exception into `False`. -/
def handleLoginWith (env : Env)
    (navRec : PageState → PageState → St → NavRes (Option Nat))
    (target : PageState) (st : St) : NavRes Bool :=
  match driverCall env .navTimeout
      (.waitForUrlLeave st.sess.current_page login_page_url_pattern 300000) st with
  | (.error _, st1) => (.ok false, st1)
  | (.ok _, st1) =>
    match loginContinuationWith navRec target st1 with
    | (.error _, st2) => (.ok false, st2)
    | (.ok b, st2) => (.ok b, st2)

/-- Drop a handler's Boolean result, keeping effects and exceptions, as
`_navigate_from_to` does with its sub-handler results. -/
def dropBool : NavRes Bool → NavRes Unit
  | (.error e, st) => (.error e, st)
  | (.ok _, st) => (.ok (), st)

/-- Embedding of `NetsuiteNavigator._navigate_from_to` (source lines
149-176): dispatch on the current state, discard the handler's result, and
return `self._current_page`.  Fuel bounds the recursion (`LOGIN_PAGE` and
`UNKNOWN` re-enter `_navigate_from_to`); exhaustion is the model error
`outOfFuel`. -/
def navigate_from_to (env : Env) :
    Nat → PageState → PageState → St → NavRes (Option Nat)
  | 0, _, _, st => (.error .outOfFuel, st)
  | fuel + 1, fromState, toState, st =>
    let dispatch : NavRes Unit :=
      match fromState with
      | .LOGIN_PAGE =>
        dropBool (handleLoginWith env
          (fun f t s => navigate_from_to env fuel f t s) toState st)
      | .QT_HOME_PAGE => dropBool (navigate_from_qt_home env toState st)
      | .NETSUITE_HOME_PAGE => dropBool (navigate_from_netsuite_home env toState st)
      | .TIME_TRACKING_PAGE =>
        dropBool (navigate_from_netsuite_subpage env fuel toState st)
      | .WEEKLY_SHEET_PAGE =>
        dropBool (navigate_from_netsuite_subpage env fuel toState st)
      | .UNKNOWN =>
        match navigate_to_qt_home env st with
        | (.error e, st1) => (.error e, st1)
        | (.ok _, st1) =>
          dropBool
            (match navigate_from_to env fuel .QT_HOME_PAGE toState st1 with
             | (.error e, st2) => (.error e, st2)
             | (.ok p, st2) => (.ok p.isSome, st2))
    match dispatch with
    | (.error e, st') => (.error e, st')
    | (.ok _, st') => (.ok st'.sess.current_page, st')

/-- `NetsuiteNavigator._handle_login_navigation` with the recursion tied to
`navigate_from_to` at the given fuel. -/
def handleLoginNavigation (env : Env) (fuel : Nat) (target : PageState)
    (st : St) : NavRes Bool :=
  handleLoginWith env (fun f t s => navigate_from_to env fuel f t s) target st

/-- The post-login-wait continuation tied to `navigate_from_to` at the given
fuel. -/
def loginContinuation (env : Env) (fuel : Nat) (target : PageState)
    (st : St) : NavRes Bool :=
  loginContinuationWith (fun f t s => navigate_from_to env fuel f t s) target st

/-- Embedding of `NetsuiteNavigator.go_to_page` (source lines 83-103):
classify, return the current page immediately when already at the target,
otherwise run `_navigate_from_to`; the `try/except` turns any exception
into a `None` return. -/
def go_to_page (env : Env) (fuel : Nat) (target : PageState) (st : St) :
    NavRes (Option Nat) :=
  let (cur, st1) := get_current_page st
  if cur = target then (.ok st1.sess.current_page, st1)
  else
    match navigate_from_to env fuel cur target st1 with
    | (.error _, st2) => (.ok none, st2)
    | (.ok p, st2) => (.ok p, st2)

/-- Run `go_to_page` from a world and session with an empty trace. -/
def runGoToPage (env : Env) (fuel : Nat) (target : PageState) (w : World)
    (s : NavSession) : NavRes (Option Nat) :=
  go_to_page env fuel target ⟨w, s, [], 0⟩

/-- What a completed driver action guarantees about the successor world, as
the hops rely on it: a completed hop-level wait leaves the active page
classifying as one of the awaited patterns' states, a completed login wait
leaves the login page, a loaded popup shows NetSuite home, and a popup
event produces a page. -/
def ActionPost : DriverAction → World → Prop
  | .waitForUrlChange _ pats _, w => pats ≠ [] → classifyWorld w ∈ pats.map classify
  | .waitForUrlLeave _ _ _, w => classifyWorld w ≠ .LOGIN_PAGE
  | .waitForLoadState _ _, w => classifyWorld w = .NETSUITE_HOME_PAGE
  | .awaitPopup, w => w.pages ≠ []
  | _, _ => True

/-- An environment in which every attempted hop succeeds: each driver call
completes and establishes its postcondition. -/
def GoodEnv (env : Env) : Prop :=
  ∀ n w a, ∃ w', env n w a = some w' ∧ ActionPost a w'

/-- An environment in which every driver call completes (no postcondition
demanded). -/
def EnvAllOk (env : Env) : Prop := ∀ n w a, ∃ w', env n w a = some w'

/-- The cached portal reference points at an open page that still shows a
portal-home URL (needed for the bring-to-front hop to land on the portal). -/
def portalFreshB (st : St) : Bool :=
  match st.sess.page_qtest_portal with
  | none => false
  | some pid =>
    match (st.world.pages.filter (fun p => p.id == pid)).getLast? with
    | none => false
    | some p => if classify p.url = .QT_HOME_PAGE then true else false

/-- App-side interactions: element clicks and fills. -/
def isClickOrFill : DriverAction → Bool
  | .click _ _ _ => true
  | .fill _ _ _ _ => true
  | _ => false

/-- An environment that is never consulted in the runs it witnesses (and
fails every call otherwise). -/
def envNone : Env := fun _ _ _ => none

/-- A successful successor world for each action kind, satisfying
`ActionPost`. -/
def envGoodWorld (a : DriverAction) : World :=
  match a with
  | .waitForUrlChange _ pats _ => ⟨[⟨99, pats.headD "about:blank"⟩]⟩
  | .waitForLoadState _ _ => ⟨[⟨99, netsuite_home_url_pattern⟩]⟩
  | _ => ⟨[⟨99, "about:blank"⟩]⟩

/-- A concrete environment in which every hop succeeds. -/
def envC : Env := fun _ _ a => some (envGoodWorld a)

/-- A world whose active page is the NetSuite home page. -/
def wNS : World := ⟨[⟨1, "https://app.netsuite.com/app/center/card;x=1"⟩]⟩

/-- A world whose active page is the time-tracking page. -/
def wTT : World := ⟨[⟨5, "https://app.netsuite.com/app/accounting/transactions/timebill.nl"⟩]⟩

/-- A world whose active page matches no pattern. -/
def wUnk : World := ⟨[⟨3, "mystery://nowhere"⟩]⟩

/-- A world whose active page is the login page. -/
def wLogin2 : World := ⟨[⟨4, "https://login.microsoftonline.com/auth"⟩]⟩

/-- A world whose active page matches no pattern, as left by `env6`'s login
wait. -/
def wMystery : World := ⟨[⟨4, "about:weird"⟩]⟩

/-- An environment whose login wait and portal navigation complete (into
`wMystery`) while every hop-level wait times out. -/
def env6 : Env := fun _ _ a =>
  match a with
  | .waitForUrlLeave _ _ _ => some wMystery
  | .navigate _ _ => some wMystery
  | _ => none

/-- An environment whose portal navigation completes while every other call
fails (used to surface a resolution-wait failure). -/
def env3 : Env := fun _ _ a =>
  match a with
  | .navigate _ _ => some wMystery
  | _ => none

/-- An empty session. -/
def s0 : NavSession := {}

/-- URL samples for the `wait_for_page_load` divergence: no pattern matches
during the polling budget, but the extra final sample contains the last
pattern. -/
def urlAtC4 : Nat → Option String :=
  fun n => if n = 0 then some "zzz" else some "xbbbx"

/-- URL samples for the C10 witness: no pattern matches during the budget
and the final extra sample contains only the first pattern. -/
def urlAtC10 : Nat → Option String :=
  fun n => if n = 0 then some "zz" else some "xaax"

/-- A world whose active page is a NetSuite home page (C8 witness input). -/
def wC8 : World := ⟨[⟨8, "https://app.netsuite.com/app/center/card#h"⟩]⟩

/-- The active page of `wC8`. -/
def pC8 : Pg := ⟨8, "https://app.netsuite.com/app/center/card#h"⟩

/-- A state whose active page is a time-tracking page while the portal
reference caches page 1 (C9 witness input). -/
def stC9w : St :=
  ⟨⟨[⟨9, "https://app.netsuite.com/app/accounting/transactions/timebill-w"⟩]⟩,
   ⟨some 1, none, none⟩, [], 0⟩

/-- The active page of `stC9w`. -/
def pC9w : Pg := ⟨9, "https://app.netsuite.com/app/accounting/transactions/timebill-w"⟩

/-- A state whose active page is a login page and whose portal reference is
unset (C9 counterexample input). -/
def stC9ce : St := ⟨⟨[⟨7, "https://login.microsoftonline.com/9"⟩]⟩, s0, [], 0⟩

/-- Characterization of `get_current_page`: it returns the classification of
the active page and performs exactly the session update
`classifySessionUpdate`. -/
theorem get_current_page_eq (st : St) :
    get_current_page st =
      (classifyWorld st.world, { st with sess := classifySessionUpdate st.world st.sess }) := by
  unfold get_current_page classifyWorld classifySessionUpdate classify
  cases h : st.world.pages.getLast? with
  | none => rfl
  | some p =>
    by_cases h1 : strIn login_page_url_pattern p.url = true <;>
      by_cases h2 : strIn qt_home_url_pattern p.url = true <;>
        by_cases h3 : strIn netsuite_home_url_pattern p.url = true <;>
          by_cases h4 : strIn time_tracking_url_pattern p.url = true <;>
            by_cases h5 : strIn weekly_sheet_url_pattern p.url = true <;>
              simp [h1, h2, h3, h4, h5]

/-- C1: classification is the deterministic, total first-match function over
the Pattern Table in the fixed precedence order login, portal-home,
app-home, time-tracking, weekly-sheet: `get_current_page` classifies the
most-recently-active page's URL as a pure function of that URL, the result
equals the spec's ordered first-match `specClassify` on every URL (so a URL
matching several patterns textually is resolved by that order), and a URL
in which no pattern occurs classifies as `UNKNOWN`. -/
theorem classify_firstMatch_c1 :
    (∀ st, (get_current_page st).1 = classifyWorld st.world) ∧
    (∀ url, classify url = specClassify url) ∧
    (∀ url, (∀ e ∈ urlPatternTable, strIn e.1 url = false) →
      classify url = .UNKNOWN) := by
  refine ⟨fun st => by rw [get_current_page_eq], fun url => ?_, fun url h => ?_⟩
  · unfold classify specClassify urlPatternTable
    by_cases h1 : strIn login_page_url_pattern url = true <;>
      by_cases h2 : strIn qt_home_url_pattern url = true <;>
        by_cases h3 : strIn netsuite_home_url_pattern url = true <;>
          by_cases h4 : strIn time_tracking_url_pattern url = true <;>
            by_cases h5 : strIn weekly_sheet_url_pattern url = true <;>
              simp [List.find?, h1, h2, h3, h4, h5]
  · have h1 := h (login_page_url_pattern, .LOGIN_PAGE) (by simp [urlPatternTable])
    have h2 := h (qt_home_url_pattern, .QT_HOME_PAGE) (by simp [urlPatternTable])
    have h3 := h (netsuite_home_url_pattern, .NETSUITE_HOME_PAGE) (by simp [urlPatternTable])
    have h4 := h (time_tracking_url_pattern, .TIME_TRACKING_PAGE) (by simp [urlPatternTable])
    have h5 := h (weekly_sheet_url_pattern, .WEEKLY_SHEET_PAGE) (by simp [urlPatternTable])
    unfold classify
    simp only at h1 h2 h3 h4 h5
    simp [h1, h2, h3, h4, h5]

/-- Witness for C1 at a concrete URL in which no pattern occurs. -/
theorem classify_firstMatch_c1_witness :
    classify "https://example.org/q" = .UNKNOWN :=
  classify_firstMatch_c1.2.2 "https://example.org/q" (by decide)

/-- The polling loop with the loop variable already bound to the last
pattern: when every remaining poll reads a URL matching no pattern, the
loop runs its full budget and hands that binding to the final check. -/
theorem waitLoop_noMatch (urlAt : Nat → Option String) (pats : List String)
    (q : String) (hq : pats.getLast? = some q) :
    ∀ remaining t,
      (∀ i, t ≤ i → i < t + remaining →
        ∃ v, urlAt i = some v ∧ pats.any (fun p => strIn p v) = false) →
      waitLoop urlAt pats remaining t (some q) =
        waitFinalCheck urlAt (t + remaining) (some q) := by
  intro remaining
  induction remaining with
  | zero => intro t _; rfl
  | succ n ih =>
    intro t h
    obtain ⟨v, hv, hnm⟩ := h t (Nat.le_refl t) (by omega)
    unfold waitLoop
    simp only [hv, hnm, hq, Bool.false_eq_true, if_false]
    have harith : t + 1 + n = t + (n + 1) := by omega
    rw [ih (t + 1) (fun i hi1 hi2 => h i (by omega) (by omega)), harith]

/-- The whole wait when no poll within the budget matches: the final check
runs on the last pattern only, with the fresh extra sample. -/
theorem wait_noMatch (urlAt : Nat → Option String) (pats : List String)
    (n : Nat) (q : String) (hq : pats.getLast? = some q)
    (h : ∀ i, i < n + 1 →
      ∃ v, urlAt i = some v ∧ pats.any (fun p => strIn p v) = false) :
    wait_for_page_load urlAt pats (n + 1) =
      waitFinalCheck urlAt (n + 1) (some q) := by
  unfold wait_for_page_load
  obtain ⟨v, hv, hnm⟩ := h 0 (by omega)
  unfold waitLoop
  simp only [hv, hnm, hq, Bool.false_eq_true, if_false]
  have hrest := waitLoop_noMatch urlAt pats q hq n 1
    (fun i hi1 hi2 => h i (by omega))
  rw [hrest]
  have harith : 1 + n = n + 1 := by omega
  rw [harith]

/-- C10: after the polling budget is exhausted with no match,
`wait_for_page_load` takes one extra URL sample and tests it against only
the last pattern of the list: it returns successfully whenever that sample
contains the last pattern, it raises `TimeoutError` whenever that sample
does not contain the last pattern (even if the sample contains an earlier
pattern), and with a zero timeout the loop body never runs and the final
check references the never-bound loop variable. -/
theorem wait_quirk_c10 :
    (∀ (urlAt : Nat → Option String) (pats : List String) (n : Nat) q u,
       pats.getLast? = some q →
       (∀ i, i < n + 1 →
         ∃ v, urlAt i = some v ∧ pats.any (fun p => strIn p v) = false) →
       urlAt (n + 1) = some u → strIn q u = true →
       wait_for_page_load urlAt pats (n + 1) = .success) ∧
    (∀ (urlAt : Nat → Option String) (pats : List String) (n : Nat) q u,
       pats.getLast? = some q →
       (∀ i, i < n + 1 →
         ∃ v, urlAt i = some v ∧ pats.any (fun p => strIn p v) = false) →
       urlAt (n + 1) = some u → strIn q u = false →
       wait_for_page_load urlAt pats (n + 1) = .timeoutErr q) ∧
    (∀ (urlAt : Nat → Option String) (pats : List String),
       wait_for_page_load urlAt pats 0 = .unboundLocalErr) := by
  refine ⟨fun urlAt pats n q u hq h hu hin => ?_,
    fun urlAt pats n q u hq h hu hnin => ?_, fun urlAt pats => rfl⟩
  · rw [wait_noMatch urlAt pats n q hq h]
    unfold waitFinalCheck
    simp [hu, hin]
  · rw [wait_noMatch urlAt pats n q hq h]
    unfold waitFinalCheck
    simp [hu, hnin]

/-- Witness for C10: with patterns `["aa", "qq"]` and a one-second budget
whose poll reads a non-matching URL, a final sample containing only the
earlier pattern still times out, a final sample containing the last pattern
returns successfully, and a zero budget hits the unbound loop variable. -/
theorem wait_quirk_c10_witness :
    wait_for_page_load urlAtC10 ["aa", "qq"] 1 = .timeoutErr "qq" ∧
    wait_for_page_load (fun n => if n = 0 then some "zz" else some "xqqx")
      ["aa", "qq"] 1 = .success ∧
    wait_for_page_load urlAtC10 ["aa", "qq"] 0 = .unboundLocalErr := by
  refine ⟨?_, ?_, ?_⟩
  · exact wait_quirk_c10.2.1 urlAtC10 ["aa", "qq"] 0 "qq" "xaax" (by decide)
      (fun i hi => by
        have hi0 : i = 0 := by omega
        subst hi0
        exact ⟨"zz", by decide, by decide⟩)
      (by decide) (by decide)
  · exact wait_quirk_c10.1 (fun n => if n = 0 then some "zz" else some "xqqx")
      ["aa", "qq"] 0 "qq" "xqqx" (by decide)
      (fun i hi => by
        have hi0 : i = 0 := by omega
        subst hi0
        exact ⟨"zz", by decide, by decide⟩)
      (by decide) (by decide)
  · exact wait_quirk_c10.2.2 urlAtC10 ["aa", "qq"]

/-- C4 divergence: at patterns `["aaa", "bbb"]` with a one-second budget, the
only poll within the budget reads `"zzz"`, which contains no pattern, yet
the call returns normally (no `TimeoutError`) because the extra final
sample `"xbbbx"` contains the last pattern — against the contract that a
timeout is raised exactly when no pattern ever matched a poll within the
budget. -/
theorem wait_c4_divergence :
    wait_for_page_load urlAtC4 ["aaa", "bbb"] 1 = .success ∧
    urlAtC4 0 = some "zzz" ∧
    strIn "aaa" "zzz" = false ∧ strIn "bbb" "zzz" = false := by
  refine ⟨by decide, by decide, by decide, by decide⟩

/-- The classification side effect always records the active page as the
session's current page. -/
theorem classifySessionUpdate_current (w : World) (s : NavSession) (p : Pg)
    (hp : w.pages.getLast? = some p) :
    (classifySessionUpdate w s).current_page = some p.id := by
  unfold classifySessionUpdate
  simp only [hp]
  cases classify p.url <;> rfl

/-- C8: requesting the state the session is already in is a no-op at the
driver level: `go_to_page` performs zero driver actions (empty trace, world
untouched) and returns the current page handle immediately — the freshly
classified active page when one is open, the cached handle when no page is
open and the target is `UNKNOWN`. -/
theorem go_to_page_noop_c8 :
    (∀ env fuel w s t p, w.pages.getLast? = some p → classify p.url = t →
       runGoToPage env fuel t w s =
         (.ok (some p.id), ⟨w, classifySessionUpdate w s, [], 0⟩)) ∧
    (∀ env fuel s, runGoToPage env fuel .UNKNOWN ⟨[]⟩ s =
       (.ok s.current_page, ⟨⟨[]⟩, s, [], 0⟩)) := by
  constructor
  · intro env fuel w s t p hp hcl
    have hcw : classifyWorld w = t := by
      unfold classifyWorld; simp only [hp]; exact hcl
    unfold runGoToPage go_to_page
    rw [get_current_page_eq]
    simp only [hcw, if_pos]
    rw [classifySessionUpdate_current w s p hp]
  · intro env fuel s
    rfl

/-- Witness for C8: from a NetSuite-home world, requesting NetSuite home
returns the active page with an empty trace and unchanged world. -/
theorem go_to_page_noop_c8_witness :
    runGoToPage envNone 0 .NETSUITE_HOME_PAGE wC8 s0 =
      (.ok (some 8), ⟨wC8, classifySessionUpdate wC8 s0, [], 0⟩) :=
  go_to_page_noop_c8.1 envNone 0 wC8 s0 .NETSUITE_HOME_PAGE pC8
    (by decide) (by decide)

/-- C9 (amended): on a classification call with an open page, an app-side
match (NetSuite home, time tracking, weekly sheet) updates the target-app
reference and leaves the portal reference unchanged; a portal-home match
updates the portal reference and leaves the app reference unchanged; a
login match updates neither named reference; an `UNKNOWN` result leaves
both named references unchanged; and in every one of these cases the
active-page field is reassigned to the most-recent page. -/
theorem get_current_page_registry_c9 (st : St) (p : Pg)
    (hp : st.world.pages.getLast? = some p) :
    (((get_current_page st).1 = .NETSUITE_HOME_PAGE ∨
      (get_current_page st).1 = .TIME_TRACKING_PAGE ∨
      (get_current_page st).1 = .WEEKLY_SHEET_PAGE) →
      (get_current_page st).2.sess.page_netsuite = some p.id ∧
      (get_current_page st).2.sess.page_qtest_portal = st.sess.page_qtest_portal) ∧
    ((get_current_page st).1 = .QT_HOME_PAGE →
      (get_current_page st).2.sess.page_qtest_portal = some p.id ∧
      (get_current_page st).2.sess.page_netsuite = st.sess.page_netsuite) ∧
    ((get_current_page st).1 = .LOGIN_PAGE →
      (get_current_page st).2.sess.page_qtest_portal = st.sess.page_qtest_portal ∧
      (get_current_page st).2.sess.page_netsuite = st.sess.page_netsuite) ∧
    ((get_current_page st).1 = .UNKNOWN →
      (get_current_page st).2.sess.page_qtest_portal = st.sess.page_qtest_portal ∧
      (get_current_page st).2.sess.page_netsuite = st.sess.page_netsuite) ∧
    (get_current_page st).2.sess.current_page = some p.id ∧
    (get_current_page st).2.world = st.world ∧
    (get_current_page st).2.trace = st.trace := by
  have hcw : classifyWorld st.world = classify p.url := by
    unfold classifyWorld; rw [hp]
  simp only [get_current_page_eq]
  unfold classifySessionUpdate
  simp only [hp, hcw]
  cases hc : classify p.url <;> simp [hc]

/-- Witness for C9 at a time-tracking page with a cached portal reference:
the app reference is updated to the active page and the portal reference is
preserved. -/
theorem get_current_page_registry_c9_witness :
    (get_current_page stC9w).2.sess.page_netsuite = some 9 ∧
    (get_current_page stC9w).2.sess.page_qtest_portal = some 1 := by
  have h := get_current_page_registry_c9 stC9w pC9w (by decide)
  have h2 := h.1 (by right; left; decide)
  refine ⟨h2.1, ?_⟩
  rw [h2.2]
  decide

/-- Counterexample for C9 as stated: classifying a login page does not
update the portal reference (it stays `none` rather than being set to the
page just classified). -/
theorem get_current_page_registry_c9_counterexample :
    (get_current_page stC9ce).1 = .LOGIN_PAGE ∧
    (get_current_page stC9ce).2.sess.page_qtest_portal = none := by
  decide

/-- C6 (amended): `_handle_login_navigation` waits up to 300000 ms (5
minutes) for the active page's URL to leave the login pattern and then runs
the post-wait continuation under a catch-all; and that continuation's state
evolution — browser world, session registry, driver-action trace — is
exactly that of a fresh `go_to_page` with the same target run from the
post-wait state (which re-classifies and proceeds from the newly classified
state).  Only the value returned to the caller can differ, when the
continuation raises an escaping failure. -/
theorem login_continuation_c6 :
    (∀ env fuel target st,
       handleLoginNavigation env fuel target st =
         (match driverCall env .navTimeout
             (.waitForUrlLeave st.sess.current_page login_page_url_pattern 300000) st with
          | (.error _, st1) => (.ok false, st1)
          | (.ok _, st1) =>
            match loginContinuation env fuel target st1 with
            | (.error _, st2) => (.ok false, st2)
            | (.ok b, st2) => (.ok b, st2))) ∧
    (∀ env fuel target st,
       (loginContinuation env fuel target st).2 =
         (go_to_page env fuel target st).2) := by
  constructor
  · intro env fuel target st
    rfl
  · intro env fuel target st
    unfold loginContinuation loginContinuationWith go_to_page
    rcases hg : get_current_page st with ⟨cur, st1⟩
    by_cases h : cur = target
    · simp [h]
    · simp only [h, if_neg, if_false]
      rcases hnav : navigate_from_to env fuel cur target st1 with ⟨r, st2⟩
      cases r <;> simp

/-- Counterexample for C6 as stated: from the login page with target
NetSuite home, the login wait resolves to a URL classifying `UNKNOWN` and
the subsequent portal-resolution wait times out; the original `go_to_page`
call swallows that failure inside `_handle_login_navigation` and returns
the current page handle, while a fresh `go_to_page` invoked from the newly
classified state returns `None` — so the subsequent behaviors are not
equal. -/
theorem login_continuation_c6_counterexample :
    classifyWorld wMystery = .UNKNOWN ∧
    (runGoToPage env6 5 .NETSUITE_HOME_PAGE wLogin2 s0).1 = .ok (some 4) ∧
    (runGoToPage env6 5 .NETSUITE_HOME_PAGE wMystery ⟨none, none, some 4⟩).1 =
      .ok none := by
  refine ⟨by decide, rfl, rfl⟩

/-- Unfolding of a driver call the environment completes. -/
theorem driverCall_some (env : Env) (err : NavErr) (a : DriverAction) (st : St)
    (w' : World) (h : env st.tick st.world a = some w') :
    driverCall env err a st =
      (.ok (), { st with world := w', trace := st.trace ++ [a], tick := st.tick + 1 }) := by
  unfold driverCall; rw [h]

/-- Each table pattern, read as a URL, classifies as its own state. -/
theorem classify_login_pattern : classify login_page_url_pattern = .LOGIN_PAGE := by decide

/-- The portal-home pattern classifies as portal home. -/
theorem classify_qt_pattern : classify qt_home_url_pattern = .QT_HOME_PAGE := by decide

/-- The app-home pattern classifies as NetSuite home. -/
theorem classify_ns_pattern : classify netsuite_home_url_pattern = .NETSUITE_HOME_PAGE := by decide

/-- The time-tracking pattern classifies as time tracking. -/
theorem classify_tt_pattern : classify time_tracking_url_pattern = .TIME_TRACKING_PAGE := by decide

/-- The weekly-sheet pattern classifies as weekly sheet. -/
theorem classify_ws_pattern : classify weekly_sheet_url_pattern = .WEEKLY_SHEET_PAGE := by decide

/-- Under `GoodEnv`, from a session with an app reference, the
NetSuite-home handler reaches a time-tracking or weekly-sheet target: the
click and wait hops complete and the final world classifies as the target. -/
theorem from_ns_home_good (env : Env) (st : St) (t : PageState) (pid : Nat)
    (hgood : GoodEnv env) (hns : st.sess.page_netsuite = some pid)
    (ht : t = .TIME_TRACKING_PAGE ∨ t = .WEEKLY_SHEET_PAGE) :
    ∃ st', navigate_from_netsuite_home env t st = (.ok true, st') ∧
      classifyWorld st'.world = t := by
  rcases ht with ht | ht <;> subst ht
  · obtain ⟨w1, he1, -⟩ := hgood st.tick st.world (.click pid "link" "Track Time")
    obtain ⟨w2, he2, hp2⟩ := hgood (st.tick + 1) w1
      (.waitForUrlChange st.sess.current_page [time_tracking_url_pattern] 10)
    have hc2 : classifyWorld w2 = .TIME_TRACKING_PAGE := by
      have hmem := hp2 (by simp)
      simpa [classify_tt_pattern] using hmem
    unfold navigate_from_netsuite_home clickC waitForPageLoadC
    rw [hns]
    simp only [driverCall, he1, he2, get_current_page_eq, hc2]
    simp
    exact hc2
  · obtain ⟨w1, he1, -⟩ := hgood st.tick st.world (.click pid "link" "Weekly Timesheet")
    obtain ⟨w2, he2, hp2⟩ := hgood (st.tick + 1) w1
      (.waitForUrlChange st.sess.current_page [weekly_sheet_url_pattern] 10)
    have hc2 : classifyWorld w2 = .WEEKLY_SHEET_PAGE := by
      have hmem := hp2 (by simp)
      simpa [classify_ws_pattern] using hmem
    unfold navigate_from_netsuite_home clickC waitForPageLoadC
    rw [hns]
    simp only [driverCall, he1, he2, get_current_page_eq, hc2]
    simp
    exact hc2

/-- Classification onto an app-side state records an app reference. -/
theorem sessUpdate_netsuite (w : World) (s : NavSession)
    (h : classifyWorld w = .NETSUITE_HOME_PAGE ∨
      classifyWorld w = .TIME_TRACKING_PAGE ∨
      classifyWorld w = .WEEKLY_SHEET_PAGE) :
    ∃ q, (classifySessionUpdate w s).page_netsuite = some q := by
  unfold classifyWorld at h
  unfold classifySessionUpdate
  cases hp : w.pages.getLast? with
  | none => simp [hp] at h
  | some p =>
    simp only [hp] at h ⊢
    rcases h with h | h | h <;> rw [h] <;> exact ⟨p.id, rfl⟩

/-- Classification onto the portal-home state records a portal reference. -/
theorem sessUpdate_portal (w : World) (s : NavSession)
    (h : classifyWorld w = .QT_HOME_PAGE) :
    ∃ q, (classifySessionUpdate w s).page_qtest_portal = some q := by
  unfold classifyWorld at h
  unfold classifySessionUpdate
  cases hp : w.pages.getLast? with
  | none => simp [hp] at h
  | some p =>
    simp only [hp] at h ⊢
    rw [h]
    exact ⟨p.id, rfl⟩

/-- Under `GoodEnv`, from a session with a portal reference, the
launch-the-app hop sequence of `_go_to_netsuite_from_qt_home` completes:
the popup loads, the final world classifies as NetSuite home and the
session records an app reference. -/
theorem go_to_netsuite_good (env : Env) (st : St) (pid : Nat)
    (hgood : GoodEnv env) (hqt : st.sess.page_qtest_portal = some pid) :
    ∃ st', go_to_netsuite_from_qt_home env st = (.ok true, st') ∧
      classifyWorld st'.world = .NETSUITE_HOME_PAGE ∧
      ∃ q, st'.sess.page_netsuite = some q := by
  obtain ⟨w1, he1, -⟩ := hgood st.tick st.world (.click pid "button" "App launcher")
  obtain ⟨w2, he2, -⟩ := hgood (st.tick + 1) w1 (.click pid "searchbox" "Find Microsoft 365 apps")
  obtain ⟨w3, he3, -⟩ := hgood (st.tick + 2) w2
    (.fill pid "searchbox" "Search all your Microsoft 365" "netsuite")
  obtain ⟨w4, he4, -⟩ := hgood (st.tick + 3) w3
    (.click pid "listitem" "Netsuite will be opened in new tab")
  obtain ⟨w5, he5, -⟩ := hgood (st.tick + 4) w4 .awaitPopup
  obtain ⟨w6, he6, hp6⟩ := hgood (st.tick + 5) w5
    (.waitForLoadState (((w5.pages.getLast?).map Pg.id).getD 0) "networkidle")
  have hc6 : classifyWorld w6 = .NETSUITE_HOME_PAGE := hp6
  unfold go_to_netsuite_from_qt_home clickC fillC waitForLoadStateC awaitPopupC
  simp only [driverCall, hqt, he1, he2, he3, he4, he5, he6, get_current_page_eq, hc6]
  simp
  refine ⟨hc6, ?_⟩
  exact sessUpdate_netsuite w6 _ (Or.inl hc6)

/-- A world classifying as a known state has an active page. -/
theorem classifyWorld_getLast (w : World) (h : classifyWorld w ≠ .UNKNOWN) :
    ∃ p, w.pages.getLast? = some p := by
  unfold classifyWorld at h
  cases hp : w.pages.getLast? with
  | none => rw [hp] at h; exact absurd rfl h
  | some p => exact ⟨p, rfl⟩

/-- Under `GoodEnv`, the portal-resolution tail completes with `true`, the
final world classifies as portal home and the session records a portal
reference. -/
theorem to_qt_home_from_good (env : Env) (pid : Nat) (st2 : St)
    (hgood : GoodEnv env) :
    ∃ st', navigate_to_qt_home_from env pid st2 = (.ok true, st') ∧
      classifyWorld st'.world = .QT_HOME_PAGE ∧
      ∃ q, st'.sess.page_qtest_portal = some q := by
  obtain ⟨w1, he1, -⟩ := hgood st2.tick st2.world (.navigate pid qt_home_target_url)
  obtain ⟨w2, he2, hp2⟩ := hgood (st2.tick + 1) w1
    (.waitForUrlChange st2.sess.current_page
      [qt_home_url_pattern, login_page_url_pattern] 10)
  have hp2' : classifyWorld w2 = .QT_HOME_PAGE ∨ classifyWorld w2 = .LOGIN_PAGE := by
    have hm := hp2 (by simp)
    simpa [classify_qt_pattern, classify_login_pattern] using hm
  rcases hp2' with hqt2 | hlog2
  · unfold navigate_to_qt_home_from navigateC waitForPageLoadC
    simp only [driverCall, he1, he2, get_current_page_eq, hqt2]
    simp
    exact ⟨hqt2, sessUpdate_portal w2 _ hqt2⟩
  · obtain ⟨p2, hlast2⟩ := classifyWorld_getLast w2 (by simp [hlog2])
    have hcc : ∀ s, (classifySessionUpdate w2 s).current_page = some p2.id :=
      fun s => classifySessionUpdate_current w2 s p2 hlast2
    obtain ⟨w3, he3, hp3⟩ := hgood (st2.tick + 2) w2
      (.waitForUrlChange (some p2.id) [qt_home_url_pattern] 300)
    have hqt3 : classifyWorld w3 = .QT_HOME_PAGE := by
      have hm := hp3 (by simp)
      simpa [classify_qt_pattern] using hm
    unfold navigate_to_qt_home_from navigateC waitForPageLoadC
    simp only [driverCall, he1, he2, get_current_page_eq, hlog2, hcc, he3, hqt3]
    simp
    exact ⟨hqt3, sessUpdate_portal w3 _ hqt3⟩

/-- Under `GoodEnv`, `_navigate_to_qt_home` always resolves: it returns
`true`, the final world classifies as portal home and the session records a
portal reference. -/
theorem to_qt_home_good (env : Env) (st : St) (hgood : GoodEnv env) :
    ∃ st', navigate_to_qt_home env st = (.ok true, st') ∧
      classifyWorld st'.world = .QT_HOME_PAGE ∧
      ∃ q, st'.sess.page_qtest_portal = some q := by
  unfold navigate_to_qt_home
  cases hh : st.world.pages.head? with
  | none =>
    simp only [hh, newPageC]
    exact to_qt_home_from_good env _ _ hgood
  | some p0 =>
    simp only [hh]
    exact to_qt_home_from_good env _ _ hgood

/-- Classification onto an app-side state records the active page as the
app reference. -/
theorem classifySessionUpdate_netsuite_point (w : World) (s : NavSession)
    (p : Pg) (hp : w.pages.getLast? = some p)
    (hcl : classify p.url = .NETSUITE_HOME_PAGE ∨
      classify p.url = .TIME_TRACKING_PAGE ∨ classify p.url = .WEEKLY_SHEET_PAGE) :
    (classifySessionUpdate w s).page_netsuite = some p.id := by
  unfold classifySessionUpdate
  simp only [hp]
  rcases hcl with h | h | h <;> rw [h]

/-- Classification away from portal home leaves the portal reference. -/
theorem classifySessionUpdate_portal_preserved (w : World) (s : NavSession)
    (h : classifyWorld w ≠ .QT_HOME_PAGE) :
    (classifySessionUpdate w s).page_qtest_portal = s.page_qtest_portal := by
  unfold classifyWorld at h
  unfold classifySessionUpdate
  cases hp : w.pages.getLast? with
  | none => rfl
  | some p =>
    simp only [hp] at h
    cases hc : classify p.url <;> simp only [hc]
    exact absurd hc h

/-- Unpacking of a fresh portal cache. -/
theorem portalFreshB_spec (st : St) (h : portalFreshB st = true) :
    ∃ pid p, st.sess.page_qtest_portal = some pid ∧
      (st.world.pages.filter (fun q => q.id == pid)).getLast? = some p ∧
      classify p.url = .QT_HOME_PAGE := by
  unfold portalFreshB at h
  cases hq : st.sess.page_qtest_portal with
  | none => simp only [hq] at h; cases h
  | some pid =>
    simp only [hq] at h
    cases hf : (st.world.pages.filter (fun q => q.id == pid)).getLast? with
    | none => simp only [hf] at h; cases h
    | some p =>
      simp only [hf] at h
      refine ⟨pid, p, rfl, hf, ?_⟩
      by_cases hc : classify p.url = .QT_HOME_PAGE
      · exact hc
      · rw [if_neg hc] at h; cases h

/-- Bringing a page to the front makes it the page that classification
reads. -/
theorem bringToFront_classify (st : St) (pid : Nat) (p : Pg)
    (hfilter : (st.world.pages.filter (fun q => q.id == pid)).getLast? = some p) :
    classifyWorld (bringToFrontC pid st).2.world = classify p.url := by
  unfold bringToFrontC classifyWorld
  have hne : st.world.pages.filter (fun q => q.id == pid) ≠ [] := by
    intro hnil
    rw [hnil] at hfilter
    cases hfilter
  rw [List.getLast?_append_of_ne_nil _ hne, hfilter]

/-- Under `GoodEnv`, from a portal-home world with a portal reference, the
QT-home handler reaches any portal/app-side target with `true` and a final
world classifying as the target. -/
theorem from_qt_home_good (env : Env) (st : St) (t : PageState) (pid : Nat)
    (hgood : GoodEnv env) (hqt : st.sess.page_qtest_portal = some pid)
    (hcls : classifyWorld st.world = .QT_HOME_PAGE)
    (ht : t = .QT_HOME_PAGE ∨ t = .NETSUITE_HOME_PAGE ∨
      t = .TIME_TRACKING_PAGE ∨ t = .WEEKLY_SHEET_PAGE) :
    ∃ st', navigate_from_qt_home env t st = (.ok true, st') ∧
      classifyWorld st'.world = t := by
  rcases ht with ht | ht | ht | ht <;> subst ht
  · refine ⟨st, by unfold navigate_from_qt_home; simp, hcls⟩
  · obtain ⟨st1, hrun, hcls1, q, hns1⟩ := go_to_netsuite_good env st pid hgood hqt
    unfold navigate_from_qt_home
    simp only [hrun]
    simp
    exact hcls1
  · obtain ⟨st1, hrun, hcls1, q, hns1⟩ := go_to_netsuite_good env st pid hgood hqt
    obtain ⟨st2, hrun2, hcls2⟩ :=
      from_ns_home_good env st1 _ q hgood hns1 (Or.inl rfl)
    unfold navigate_from_qt_home
    simp only [hrun, hrun2]
    simp
    exact hcls2
  · obtain ⟨st1, hrun, hcls1, q, hns1⟩ := go_to_netsuite_good env st pid hgood hqt
    obtain ⟨st2, hrun2, hcls2⟩ :=
      from_ns_home_good env st1 _ q hgood hns1 (Or.inr rfl)
    unfold navigate_from_qt_home
    simp only [hrun, hrun2]
    simp
    exact hcls2

/-- Under `GoodEnv`, from an app subpage, the subpage handler's hop back to
NetSuite home (click "Home", wait) completes at any fuel, ending on a world
classifying as NetSuite home with an app reference recorded. -/
theorem from_subpage_ns_good (env : Env) (st : St) (fuel : Nat)
    (hgood : GoodEnv env)
    (hcls : classifyWorld st.world = .TIME_TRACKING_PAGE ∨
      classifyWorld st.world = .WEEKLY_SHEET_PAGE) :
    ∃ st', navigate_from_netsuite_subpage env fuel .NETSUITE_HOME_PAGE st =
        (.ok true, st') ∧
      classifyWorld st'.world = .NETSUITE_HOME_PAGE ∧
      ∃ q, st'.sess.page_netsuite = some q := by
  obtain ⟨p, hlast⟩ := classifyWorld_getLast st.world
    (by rcases hcls with h | h <;> simp [h])
  have hpcls : classifyWorld st.world = classify p.url := by
    unfold classifyWorld
    simp only [hlast]
  have hupd : ∀ s, (classifySessionUpdate st.world s).page_netsuite = some p.id :=
    fun s => classifySessionUpdate_netsuite_point st.world s p hlast
      (by rcases hcls with h | h
          · exact Or.inr (Or.inl (hpcls ▸ h))
          · exact Or.inr (Or.inr (hpcls ▸ h)))
  have hcc : ∀ s, (classifySessionUpdate st.world s).current_page = some p.id :=
    fun s => classifySessionUpdate_current st.world s p hlast
  obtain ⟨w1, he1, -⟩ := hgood st.tick st.world (.click p.id "link" "Home")
  obtain ⟨w2, he2, hp2⟩ := hgood (st.tick + 1) w1
    (.waitForUrlChange (some p.id) [netsuite_home_url_pattern] 10)
  have hns2 : classifyWorld w2 = .NETSUITE_HOME_PAGE := by
    have hm := hp2 (by simp)
    simpa [classify_ns_pattern] using hm
  rcases hcls with h | h
  · unfold navigate_from_netsuite_subpage clickC waitForPageLoadC
    simp only [get_current_page_eq, h, driverCall, hupd, hcc, he1, he2]
    simp
    exact ⟨hns2, p.id, hupd _⟩
  · unfold navigate_from_netsuite_subpage clickC waitForPageLoadC
    simp only [get_current_page_eq, h, driverCall, hupd, hcc, he1, he2]
    simp
    exact ⟨hns2, p.id, hupd _⟩

/-- Under `GoodEnv`, from an app subpage, the subpage handler reaches
NetSuite home and both subpages, and (when the portal cache is fresh) the
portal via bring-to-front, with `true` and a final world classifying as the
target. -/
theorem from_subpage_good (env : Env) (st : St) (t : PageState) (fuel : Nat)
    (hgood : GoodEnv env)
    (hcls : classifyWorld st.world = .TIME_TRACKING_PAGE ∨
      classifyWorld st.world = .WEEKLY_SHEET_PAGE)
    (ht : t = .NETSUITE_HOME_PAGE ∨ t = .TIME_TRACKING_PAGE ∨
      t = .WEEKLY_SHEET_PAGE ∨ (t = .QT_HOME_PAGE ∧ portalFreshB st = true)) :
    ∃ st', navigate_from_netsuite_subpage env (fuel + 1) t st = (.ok true, st') ∧
      classifyWorld st'.world = t := by
  by_cases hct : classifyWorld st.world = t
  · refine ⟨{ st with sess := classifySessionUpdate st.world st.sess }, ?_, ?_⟩
    · unfold navigate_from_netsuite_subpage
      simp [get_current_page_eq, hct]
    · simpa using hct
  · rcases ht with ht | ht | ht | ⟨ht, hfresh⟩
    · subst ht
      obtain ⟨st', hrun, hclsr, -⟩ :=
        from_subpage_ns_good env st (fuel + 1) hgood hcls
      exact ⟨st', hrun, hclsr⟩
    · subst ht
      obtain ⟨st2, hrun2, hcls2, q, hns2⟩ := from_subpage_ns_good env
        { st with sess := classifySessionUpdate st.world st.sess } fuel hgood
        (by simpa using hcls)
      obtain ⟨st3, hrun3, hcls3⟩ :=
        from_ns_home_good env st2 _ q hgood hns2 (Or.inl rfl)
      rcases hcls with h | h
      · exact absurd h hct
      · refine ⟨st3, ?_, hcls3⟩
        unfold navigate_from_netsuite_subpage
        simp only [get_current_page_eq, h, hrun2, hrun3]
        simp
    · subst ht
      obtain ⟨st2, hrun2, hcls2, q, hns2⟩ := from_subpage_ns_good env
        { st with sess := classifySessionUpdate st.world st.sess } fuel hgood
        (by simpa using hcls)
      obtain ⟨st3, hrun3, hcls3⟩ :=
        from_ns_home_good env st2 _ q hgood hns2 (Or.inr rfl)
      rcases hcls with h | h
      · refine ⟨st3, ?_, hcls3⟩
        unfold navigate_from_netsuite_subpage
        simp only [get_current_page_eq, h, hrun2, hrun3]
        simp
      · exact absurd h hct
    · subst ht
      obtain ⟨pid2, pfresh, hq, hf, hcq⟩ := portalFreshB_spec st hfresh
      have hqp : (classifySessionUpdate st.world st.sess).page_qtest_portal = some pid2 := by
        rw [classifySessionUpdate_portal_preserved st.world st.sess
          (by rcases hcls with h | h <;> simp [h])]
        exact hq
      have hbt := bringToFront_classify
        { st with sess := classifySessionUpdate st.world st.sess } pid2 pfresh hf
      rcases hcls with h | h
      · refine ⟨(bringToFrontC pid2 { st with sess := classifySessionUpdate st.world st.sess }).2, ?_, ?_⟩
        · unfold navigate_from_netsuite_subpage
          simp only [get_current_page_eq, h, hqp]
          simp [bringToFrontC]
        · rw [hbt, hcq]
      · refine ⟨(bringToFrontC pid2 { st with sess := classifySessionUpdate st.world st.sess }).2, ?_, ?_⟩
        · unfold navigate_from_netsuite_subpage
          simp only [get_current_page_eq, h, hqp]
          simp [bringToFrontC]
        · rw [hbt, hcq]

/-- `portalFreshB` only reads the world and the portal reference. -/
theorem portalFreshB_congr (st1 st2 : St)
    (hq : st1.sess.page_qtest_portal = st2.sess.page_qtest_portal)
    (hw : st1.world = st2.world) :
    portalFreshB st1 = portalFreshB st2 := by
  unfold portalFreshB
  rw [hq, hw]

/-- Under `GoodEnv`, one `_navigate_from_to` step from a portal-home world
with a portal reference reaches any portal/app-side target. -/
theorem from_to_qt_good (env : Env) (st : St) (t : PageState) (q fuel : Nat)
    (hgood : GoodEnv env) (hq : st.sess.page_qtest_portal = some q)
    (hcls : classifyWorld st.world = .QT_HOME_PAGE)
    (ht : t = .QT_HOME_PAGE ∨ t = .NETSUITE_HOME_PAGE ∨
      t = .TIME_TRACKING_PAGE ∨ t = .WEEKLY_SHEET_PAGE) :
    ∃ st', navigate_from_to env (fuel + 1) .QT_HOME_PAGE t st =
        (.ok st'.sess.current_page, st') ∧
      classifyWorld st'.world = t := by
  obtain ⟨st2, hrun2, hcls2⟩ := from_qt_home_good env st t q hgood hq hcls ht
  refine ⟨st2, ?_, hcls2⟩
  unfold navigate_from_to
  simp only [hrun2, dropBool]

/-- Under `GoodEnv`, `_navigate_from_to` from any classified non-login
state reaches the target when the target is portal/app-side, the target is
not the portal requested from NetSuite home (an undefined transition), and
a portal target from a subpage has a fresh portal cache; the final world
classifies as the target. -/
theorem from_to_good (env : Env) (st : St) (f t : PageState) (fuel : Nat)
    (hgood : GoodEnv env) (hf : f ≠ .LOGIN_PAGE)
    (hcls : classifyWorld st.world = f)
    (hqtref : f = .QT_HOME_PAGE → ∃ q, st.sess.page_qtest_portal = some q)
    (hnsref : f = .NETSUITE_HOME_PAGE → ∃ q, st.sess.page_netsuite = some q)
    (ht : t = .QT_HOME_PAGE ∨ t = .NETSUITE_HOME_PAGE ∨
      t = .TIME_TRACKING_PAGE ∨ t = .WEEKLY_SHEET_PAGE)
    (hnsqt : ¬(f = .NETSUITE_HOME_PAGE ∧ t = .QT_HOME_PAGE))
    (hfresh : (f = .TIME_TRACKING_PAGE ∨ f = .WEEKLY_SHEET_PAGE) →
      t = .QT_HOME_PAGE → portalFreshB st = true) :
    ∃ st', navigate_from_to env (fuel + 2) f t st =
        (.ok st'.sess.current_page, st') ∧
      classifyWorld st'.world = t := by
  cases f with
  | LOGIN_PAGE => exact absurd rfl hf
  | QT_HOME_PAGE =>
    obtain ⟨q, hq⟩ := hqtref rfl
    exact from_to_qt_good env st t q (fuel + 1) hgood hq hcls ht
  | NETSUITE_HOME_PAGE =>
    rcases ht with ht | ht | ht | ht <;> subst ht
    · exact absurd ⟨rfl, rfl⟩ hnsqt
    · refine ⟨st, ?_, hcls⟩
      unfold navigate_from_to
      unfold navigate_from_netsuite_home
      simp [dropBool]
    · obtain ⟨q, hq⟩ := hnsref rfl
      obtain ⟨st2, hrun2, hcls2⟩ :=
        from_ns_home_good env st _ q hgood hq (Or.inl rfl)
      refine ⟨st2, ?_, hcls2⟩
      unfold navigate_from_to
      simp only [hrun2, dropBool]
    · obtain ⟨q, hq⟩ := hnsref rfl
      obtain ⟨st2, hrun2, hcls2⟩ :=
        from_ns_home_good env st _ q hgood hq (Or.inr rfl)
      refine ⟨st2, ?_, hcls2⟩
      unfold navigate_from_to
      simp only [hrun2, dropBool]
  | TIME_TRACKING_PAGE =>
    have ht' : t = .NETSUITE_HOME_PAGE ∨ t = .TIME_TRACKING_PAGE ∨
        t = .WEEKLY_SHEET_PAGE ∨ (t = .QT_HOME_PAGE ∧ portalFreshB st = true) := by
      rcases ht with ht | ht | ht | ht
      · exact Or.inr (Or.inr (Or.inr ⟨ht, hfresh (Or.inl rfl) ht⟩))
      · exact Or.inl ht
      · exact Or.inr (Or.inl ht)
      · exact Or.inr (Or.inr (Or.inl ht))
    obtain ⟨st2, hrun2, hcls2⟩ :=
      from_subpage_good env st t fuel hgood (Or.inl hcls) ht'
    refine ⟨st2, ?_, hcls2⟩
    unfold navigate_from_to
    simp only [hrun2, dropBool]
  | WEEKLY_SHEET_PAGE =>
    have ht' : t = .NETSUITE_HOME_PAGE ∨ t = .TIME_TRACKING_PAGE ∨
        t = .WEEKLY_SHEET_PAGE ∨ (t = .QT_HOME_PAGE ∧ portalFreshB st = true) := by
      rcases ht with ht | ht | ht | ht
      · exact Or.inr (Or.inr (Or.inr ⟨ht, hfresh (Or.inr rfl) ht⟩))
      · exact Or.inl ht
      · exact Or.inr (Or.inl ht)
      · exact Or.inr (Or.inr (Or.inl ht))
    obtain ⟨st2, hrun2, hcls2⟩ :=
      from_subpage_good env st t fuel hgood (Or.inr hcls) ht'
    refine ⟨st2, ?_, hcls2⟩
    unfold navigate_from_to
    simp only [hrun2, dropBool]
  | UNKNOWN =>
    obtain ⟨st1, hrun1, hcls1, q1, hq1⟩ := to_qt_home_good env st hgood
    obtain ⟨st2, hrun2, hcls2⟩ :=
      from_to_qt_good env st1 t q1 fuel hgood hq1 hcls1 ht
    refine ⟨st2, ?_, hcls2⟩
    unfold navigate_from_to
    simp only [hrun1, hrun2, dropBool]

/-- Under `GoodEnv`, the post-login-wait continuation from a non-login
world reaches an app-side target, ending on a world classifying as the
target. -/
theorem login_continuation_good (env : Env) (st1 : St) (t : PageState)
    (fuel : Nat) (hgood : GoodEnv env)
    (hnl : classifyWorld st1.world ≠ .LOGIN_PAGE)
    (ht : t = .NETSUITE_HOME_PAGE ∨ t = .TIME_TRACKING_PAGE ∨
      t = .WEEKLY_SHEET_PAGE) :
    ∃ st' b, loginContinuationWith
        (fun f t2 s => navigate_from_to env (fuel + 2) f t2 s) t st1 =
        (.ok b, st') ∧
      classifyWorld st'.world = t := by
  have htq : t ≠ .QT_HOME_PAGE := by
    rcases ht with ht | ht | ht <;> subst ht <;> decide
  by_cases hnt : classifyWorld st1.world = t
  · refine ⟨{ st1 with sess := classifySessionUpdate st1.world st1.sess },
      true, ?_, ?_⟩
    · unfold loginContinuationWith
      simp [get_current_page_eq, hnt]
    · simpa using hnt
  · have hfto := from_to_good env
      { st1 with sess := classifySessionUpdate st1.world st1.sess }
      (classifyWorld st1.world) t fuel hgood hnl rfl
      (fun h => sessUpdate_portal st1.world st1.sess h)
      (fun h => sessUpdate_netsuite st1.world st1.sess (Or.inl h))
      (by rcases ht with ht | ht | ht <;> subst ht <;> simp)
      (by intro ⟨_, hq⟩; exact htq hq)
      (by intro _ hq; exact absurd hq htq)
    obtain ⟨st2, hrun2, hcls2⟩ := hfto
    refine ⟨st2, (st2.sess.current_page).isSome, ?_, hcls2⟩
    unfold loginContinuationWith
    simp only [get_current_page_eq, if_neg hnt, hrun2]

/-- Under `GoodEnv`, `_handle_login_navigation` toward an app-side target
ends on a world classifying as the target. -/
theorem handle_login_good (env : Env) (st : St) (t : PageState) (fuel : Nat)
    (hgood : GoodEnv env)
    (ht : t = .NETSUITE_HOME_PAGE ∨ t = .TIME_TRACKING_PAGE ∨
      t = .WEEKLY_SHEET_PAGE) :
    ∃ st' b, handleLoginNavigation env (fuel + 2) t st = (.ok b, st') ∧
      classifyWorld st'.world = t := by
  obtain ⟨w1, he1, hp1⟩ := hgood st.tick st.world
    (.waitForUrlLeave st.sess.current_page login_page_url_pattern 300000)
  have hp1' : classifyWorld w1 ≠ .LOGIN_PAGE := hp1
  obtain ⟨st2, b, hrun2, hcls2⟩ := login_continuation_good env
    { st with
      world := w1
      trace := st.trace ++
        [.waitForUrlLeave st.sess.current_page login_page_url_pattern 300000]
      tick := st.tick + 1 } t fuel hgood hp1' ht
  refine ⟨st2, b, ?_, hcls2⟩
  unfold handleLoginNavigation handleLoginWith
  simp only [driverCall, he1, hrun2]

/-- The concrete environment `envC` completes every hop. -/
theorem goodEnvC : GoodEnv envC := by
  intro n w a
  refine ⟨envGoodWorld a, rfl, ?_⟩
  cases a with
  | click p r nm => trivial
  | fill p r nm tx => trivial
  | navigate p u => trivial
  | newPage => trivial
  | bringToFront p => trivial
  | awaitPopup => simp [envGoodWorld, ActionPost]
  | waitForLoadState p s =>
    show classifyWorld ⟨[⟨99, netsuite_home_url_pattern⟩]⟩ = .NETSUITE_HOME_PAGE
    decide
  | waitForUrlLeave p pat k =>
    show classifyWorld ⟨[⟨99, "about:blank"⟩]⟩ ≠ .LOGIN_PAGE
    decide
  | waitForUrlChange p pats k =>
    intro hne
    cases pats with
    | nil => exact absurd rfl hne
    | cons q qs => simp [envGoodWorld, classifyWorld]

/-- C2 (amended): when every hop performed succeeds in the strong sense of
`GoodEnv` (each wait, click, popup and load completes and the waits leave
the active page classifying as an awaited state), `go_to_page` ends with
the classified current state equal to the requested target, for every
portal/app-side target and every starting classification — except the
transitions the code leaves undefined: a portal-home target requested from
NetSuite home or from the login page, and a portal-home target from a
subpage whose cached portal page no longer shows a portal URL. -/
theorem go_to_page_c2 (env : Env) (fuel : Nat) (t : PageState) (w : World)
    (s : NavSession) (hgood : GoodEnv env)
    (ht : t = .QT_HOME_PAGE ∨ t = .NETSUITE_HOME_PAGE ∨
      t = .TIME_TRACKING_PAGE ∨ t = .WEEKLY_SHEET_PAGE)
    (h1 : ¬(classifyWorld w = .NETSUITE_HOME_PAGE ∧ t = .QT_HOME_PAGE))
    (h2 : ¬(classifyWorld w = .LOGIN_PAGE ∧ t = .QT_HOME_PAGE))
    (h3 : (classifyWorld w = .TIME_TRACKING_PAGE ∨
        classifyWorld w = .WEEKLY_SHEET_PAGE) →
      t = .QT_HOME_PAGE → portalFreshB ⟨w, s, [], 0⟩ = true) :
    ∃ st' r, runGoToPage env (fuel + 3) t w s = (.ok r, st') ∧
      classifyWorld st'.world = t := by
  unfold runGoToPage go_to_page
  by_cases heq : classifyWorld w = t
  · refine ⟨⟨w, classifySessionUpdate w s, [], 0⟩,
      (classifySessionUpdate w s).current_page, ?_, heq⟩
    simp [get_current_page_eq, heq]
  · by_cases hlog : classifyWorld w = .LOGIN_PAGE
    · have htn : t = .NETSUITE_HOME_PAGE ∨ t = .TIME_TRACKING_PAGE ∨
          t = .WEEKLY_SHEET_PAGE := by
        rcases ht with h | h | h | h
        · exact absurd ⟨hlog, h⟩ h2
        · exact Or.inl h
        · exact Or.inr (Or.inl h)
        · exact Or.inr (Or.inr h)
      obtain ⟨st2, b, hrun2, hcls2⟩ := handle_login_good env
        ⟨w, classifySessionUpdate w s, [], 0⟩ t fuel hgood htn
      have hrun2' : handleLoginWith env
          (fun f t2 s2 => navigate_from_to env (fuel + 2) f t2 s2) t
          ⟨w, classifySessionUpdate w s, [], 0⟩ = (.ok b, st2) := hrun2
      have hlt : ¬(PageState.LOGIN_PAGE = t) := by rw [← hlog]; exact heq
      refine ⟨st2, st2.sess.current_page, ?_, hcls2⟩
      simp only [get_current_page_eq, hlog, if_neg hlt]
      unfold navigate_from_to
      simp only [hrun2', dropBool]
    · have hfresh : (classifyWorld w = .TIME_TRACKING_PAGE ∨
          classifyWorld w = .WEEKLY_SHEET_PAGE) → t = .QT_HOME_PAGE →
          portalFreshB ⟨w, classifySessionUpdate w s, [], 0⟩ = true := by
        intro hsub htq
        rw [portalFreshB_congr ⟨w, classifySessionUpdate w s, [], 0⟩ ⟨w, s, [], 0⟩
          (classifySessionUpdate_portal_preserved w s
            (by rcases hsub with h | h <;> simp [h])) rfl]
        exact h3 hsub htq
      obtain ⟨st2, hrun2, hcls2⟩ := from_to_good env
        ⟨w, classifySessionUpdate w s, [], 0⟩ (classifyWorld w) t (fuel + 1)
        hgood hlog rfl
        (fun h => sessUpdate_portal w s h)
        (fun h => sessUpdate_netsuite w s (Or.inl h))
        ht h1 hfresh
      have hrun2' : navigate_from_to env (fuel + 3) (classifyWorld w) t
          ⟨w, classifySessionUpdate w s, [], 0⟩ =
          (.ok st2.sess.current_page, st2) := hrun2
      refine ⟨st2, st2.sess.current_page, ?_, hcls2⟩
      simp only [get_current_page_eq, if_neg heq, hrun2']

/-- Counterexample for C2 as stated: from a NetSuite-home world, requesting
the portal home performs zero driver actions (so every hop performed
succeeded, vacuously), raises nothing, returns the current page handle, yet
the classified current state on return is still NetSuite home, not the
requested target. -/
theorem go_to_page_c2_counterexample :
    (runGoToPage envNone 5 .QT_HOME_PAGE wNS s0).1 = .ok (some 1) ∧
    (runGoToPage envNone 5 .QT_HOME_PAGE wNS s0).2.trace = [] ∧
    classifyWorld (runGoToPage envNone 5 .QT_HOME_PAGE wNS s0).2.world =
      .NETSUITE_HOME_PAGE := by
  refine ⟨rfl, rfl, by decide⟩

/-- Witness for C2 (amended) from the unknown state with no open pages
toward the time-tracking page, under the concrete all-hops-succeed
environment. -/
theorem go_to_page_c2_witness :
    ∃ st' r, runGoToPage envC 5 .TIME_TRACKING_PAGE ⟨[]⟩ s0 = (.ok r, st') ∧
      classifyWorld st'.world = .TIME_TRACKING_PAGE :=
  go_to_page_c2 envC 2 .TIME_TRACKING_PAGE ⟨[]⟩ s0 goodEnvC
    (by decide) (by decide) (by decide) (by decide)

/-- C7: from a session classified on the time-tracking page, a `go_to_page`
to the weekly sheet whose driver calls all complete executes exactly the
hop sequence: click the "Home" link, wait for the NetSuite-home URL
pattern, click the "Weekly Timesheet" link, wait for the weekly-sheet URL
pattern — and nothing else, in particular no portal-level interaction. -/
theorem tt_to_ws_trace_c7 (env : Env) (fuel : Nat) (w : World)
    (s : NavSession) (p : Pg) (hok : EnvAllOk env)
    (hlast : w.pages.getLast? = some p)
    (hcls : classify p.url = .TIME_TRACKING_PAGE) :
    (runGoToPage env (fuel + 3) .WEEKLY_SHEET_PAGE w s).2.trace =
      [.click p.id "link" "Home",
       .waitForUrlChange (some p.id) [netsuite_home_url_pattern] 10,
       .click p.id "link" "Weekly Timesheet",
       .waitForUrlChange (some p.id) [weekly_sheet_url_pattern] 10] := by
  have hcw : classifyWorld w = .TIME_TRACKING_PAGE := by
    unfold classifyWorld
    simp only [hlast]
    exact hcls
  have hnsAll : ∀ s', (classifySessionUpdate w s').page_netsuite = some p.id :=
    fun s' => classifySessionUpdate_netsuite_point w s' p hlast
      (Or.inr (Or.inl hcls))
  have hccAll : ∀ s', (classifySessionUpdate w s').current_page = some p.id :=
    fun s' => classifySessionUpdate_current w s' p hlast
  obtain ⟨w1, he1⟩ := hok 0 w (.click p.id "link" "Home")
  obtain ⟨w2, he2⟩ := hok 1 w1
    (.waitForUrlChange (some p.id) [netsuite_home_url_pattern] 10)
  obtain ⟨w3, he3⟩ := hok 2 w2 (.click p.id "link" "Weekly Timesheet")
  obtain ⟨w4, he4⟩ := hok 3 w3
    (.waitForUrlChange (some p.id) [weekly_sheet_url_pattern] 10)
  have hsubNS : ∀ (s' : NavSession) (f : Nat),
      navigate_from_netsuite_subpage env f .NETSUITE_HOME_PAGE ⟨w, s', [], 0⟩ =
        (.ok true, ⟨w2, classifySessionUpdate w s',
          [.click p.id "link" "Home",
           .waitForUrlChange (some p.id) [netsuite_home_url_pattern] 10], 2⟩) := by
    intro s' f
    unfold navigate_from_netsuite_subpage
    simp only [get_current_page_eq, hcw, reduceCtorEq, reduceIte, clickC,
      waitForPageLoadC, driverCall, hnsAll, hccAll, he1, he2, Nat.reduceAdd,
      List.nil_append, List.singleton_append]
  have hsubWS : navigate_from_netsuite_subpage env (fuel + 2) .WEEKLY_SHEET_PAGE
      ⟨w, classifySessionUpdate w s, [], 0⟩ =
      (.ok (if classifyWorld w4 = .WEEKLY_SHEET_PAGE then true else false),
       ⟨w4, classifySessionUpdate w4 (classifySessionUpdate w
          (classifySessionUpdate w (classifySessionUpdate w s))),
        [.click p.id "link" "Home",
         .waitForUrlChange (some p.id) [netsuite_home_url_pattern] 10,
         .click p.id "link" "Weekly Timesheet",
         .waitForUrlChange (some p.id) [weekly_sheet_url_pattern] 10], 4⟩) := by
    unfold navigate_from_netsuite_subpage
    simp only [get_current_page_eq, hcw, reduceCtorEq, reduceIte, hsubNS,
      navigate_from_netsuite_home, clickC, waitForPageLoadC, driverCall,
      hnsAll, hccAll, he3, he4, Nat.reduceAdd, List.nil_append,
      List.singleton_append, List.cons_append, or_true, true_or, or_false,
      false_or]
  unfold runGoToPage go_to_page
  simp only [get_current_page_eq, hcw]
  rw [if_neg (show ¬(PageState.TIME_TRACKING_PAGE = PageState.WEEKLY_SHEET_PAGE) by decide)]
  unfold navigate_from_to
  simp only [hsubWS, dropBool]

/-- The concrete environment `envC` completes every driver call. -/
theorem allOkEnvC : EnvAllOk envC := fun _ _ a => ⟨envGoodWorld a, rfl⟩

/-- Witness for C7 on a concrete time-tracking world. -/
theorem tt_to_ws_trace_c7_witness :
    (runGoToPage envC 5 .WEEKLY_SHEET_PAGE wTT s0).2.trace =
      [.click 5 "link" "Home",
       .waitForUrlChange (some 5) [netsuite_home_url_pattern] 10,
       .click 5 "link" "Weekly Timesheet",
       .waitForUrlChange (some 5) [weekly_sheet_url_pattern] 10] :=
  tt_to_ws_trace_c7 envC 2 wTT s0
    ⟨5, "https://app.netsuite.com/app/accounting/transactions/timebill.nl"⟩
    allOkEnvC (by decide) (by decide)

/-- The portal-resolution tail attempts no element click or fill, whatever
the environment answers. -/
theorem to_qt_home_from_noclick (env : Env) (pid : Nat) (st2 : St) :
    ((navigate_to_qt_home_from env pid st2).2.trace).filter isClickOrFill =
      st2.trace.filter isClickOrFill := by
  unfold navigate_to_qt_home_from navigateC waitForPageLoadC driverCall
  cases h1 : env st2.tick st2.world (.navigate pid qt_home_target_url) with
  | none => simp [isClickOrFill, List.filter_append]
  | some w1 =>
    simp only []
    cases h2 : env (st2.tick + 1) w1
        (.waitForUrlChange st2.sess.current_page
          [qt_home_url_pattern, login_page_url_pattern] 10) with
    | none => simp [isClickOrFill, List.filter_append]
    | some w2 =>
      simp only [get_current_page_eq]
      by_cases h3 : classifyWorld w2 = .LOGIN_PAGE
      · simp only [h3, if_pos]
        cases h4 : env (st2.tick + 2) w2
            (.waitForUrlChange (classifySessionUpdate w2 st2.sess).current_page
              [qt_home_url_pattern] 300) with
        | none => simp [isClickOrFill, List.filter_append]
        | some w3 =>
          simp only [get_current_page_eq]
          by_cases h5 : classifyWorld w3 ≠ .QT_HOME_PAGE
          · simp [h5, isClickOrFill, List.filter_append]
          · simp [h5, isClickOrFill, List.filter_append]
      · simp only [h3, if_neg]
        by_cases h6 : classifyWorld w2 = .QT_HOME_PAGE
        · simp [h3, h6, isClickOrFill, List.filter_append]
        · simp [h3, h6, isClickOrFill, List.filter_append]

/-- `_navigate_to_qt_home` attempts no element click or fill, whatever the
environment answers. -/
theorem to_qt_home_noclick (env : Env) (st : St) :
    ((navigate_to_qt_home env st).2.trace).filter isClickOrFill =
      st.trace.filter isClickOrFill := by
  unfold navigate_to_qt_home
  cases hh : st.world.pages.head? with
  | none =>
    simp only [hh, newPageC]
    rw [to_qt_home_from_noclick]
    simp [isClickOrFill, List.filter_append]
  | some p0 =>
    simp only [hh]
    rw [to_qt_home_from_noclick]

/-- C5 (amended): whenever the classified current state is `UNKNOWN` and
the target is any state other than `UNKNOWN` itself, `go_to_page` routes
through `_navigate_to_qt_home` — which opens the portal URL directly on an
existing or freshly created page and waits for portal-home or login,
applying the login rule if login — followed by `_navigate_from_to` from the
portal-home state; the resolution phase performs no element click or fill;
and when every hop succeeds the resolution ends classified as portal home
(the newly known state from which the original request is re-invoked). -/
theorem unknown_resolution_c5 (env : Env) (fuel : Nat) (t : PageState)
    (w : World) (s : NavSession)
    (hcls : classifyWorld w = .UNKNOWN) (ht : t ≠ .UNKNOWN) :
    (runGoToPage env (fuel + 1) t w s =
      (match navigate_to_qt_home env ⟨w, classifySessionUpdate w s, [], 0⟩ with
       | (.error _, st1) => (.ok none, st1)
       | (.ok _, st1) =>
         match navigate_from_to env fuel .QT_HOME_PAGE t st1 with
         | (.error _, st2) => (.ok none, st2)
         | (.ok _, st2) => (.ok st2.sess.current_page, st2))) ∧
    (((navigate_to_qt_home env ⟨w, classifySessionUpdate w s, [], 0⟩).2.trace).filter
        isClickOrFill = []) ∧
    (GoodEnv env →
      ∃ st', navigate_to_qt_home env ⟨w, classifySessionUpdate w s, [], 0⟩ =
          (.ok true, st') ∧
        classifyWorld st'.world = .QT_HOME_PAGE) := by
  refine ⟨?_, ?_, ?_⟩
  · rcases hq : navigate_to_qt_home env ⟨w, classifySessionUpdate w s, [], 0⟩
      with ⟨r1, st1⟩
    unfold runGoToPage go_to_page
    simp only [get_current_page_eq, hcls]
    rw [if_neg (fun h => ht h.symm)]
    cases r1 with
    | error e =>
      simp only [hq]
      unfold navigate_from_to
      simp only [hq, dropBool]
    | ok b =>
      rcases hq2 : navigate_from_to env fuel .QT_HOME_PAGE t st1 with ⟨r2, st2⟩
      simp only [hq, hq2]
      unfold navigate_from_to
      simp only [hq, hq2, dropBool]
      cases r2 <;> rfl
  · rw [to_qt_home_noclick]
    rfl
  · intro hgood
    obtain ⟨st', hrun, hclsq, -⟩ :=
      to_qt_home_good env ⟨w, classifySessionUpdate w s, [], 0⟩ hgood
    exact ⟨st', hrun, hclsq⟩

/-- Counterexample for C5 as stated ("for any target"): with target
`UNKNOWN` from an `UNKNOWN`-classified page, `go_to_page` is a no-op — it
performs no driver action at all, in particular it never opens the portal
URL. -/
theorem unknown_resolution_c5_counterexample :
    classifyWorld wUnk = .UNKNOWN ∧
    (runGoToPage envNone 5 .UNKNOWN wUnk s0).1 = .ok (some 3) ∧
    (runGoToPage envNone 5 .UNKNOWN wUnk s0).2.trace = [] := by
  refine ⟨by decide, rfl, rfl⟩

/-- Witness for C5 (amended) with no open pages and target time tracking
under the all-hops-succeed environment. -/
theorem unknown_resolution_c5_witness :
    ∃ st', navigate_to_qt_home envC ⟨⟨[]⟩, classifySessionUpdate ⟨[]⟩ s0, [], 0⟩ =
        (.ok true, st') ∧
      classifyWorld st'.world = .QT_HOME_PAGE :=
  (unknown_resolution_c5 envC 4 .TIME_TRACKING_PAGE ⟨[]⟩ s0
    (by decide) (by decide)).2.2 goodEnvC

/-- The launch-the-app sequence never lets an exception escape: its
`try/except` converts every failure to `False` (source lines 264-266). -/
theorem go_to_netsuite_no_err (env : Env) (st : St) :
    ∃ b st', go_to_netsuite_from_qt_home env st = (.ok b, st') := by
  unfold go_to_netsuite_from_qt_home clickC fillC awaitPopupC
    waitForLoadStateC driverCall
  dsimp only
  repeat' split
  all_goals exact ⟨_, _, rfl⟩

/-- The NetSuite-home handler never lets an exception escape (source lines
292-294). -/
theorem from_ns_home_no_err (env : Env) (t : PageState) (st : St) :
    ∃ b st', navigate_from_netsuite_home env t st = (.ok b, st') := by
  unfold navigate_from_netsuite_home clickC waitForPageLoadC driverCall
  repeat' split
  all_goals exact ⟨_, _, rfl⟩

/-- The QT-home handler never lets an exception escape. -/
theorem from_qt_home_no_err (env : Env) (t : PageState) (st : St) :
    ∃ b st', navigate_from_qt_home env t st = (.ok b, st') := by
  unfold navigate_from_qt_home
  by_cases h1 : t = .QT_HOME_PAGE
  · simp only [h1, if_pos]
    exact ⟨true, st, rfl⟩
  · rw [if_neg h1]
    by_cases h2 : t = .NETSUITE_HOME_PAGE ∨ t = .TIME_TRACKING_PAGE ∨
        t = .WEEKLY_SHEET_PAGE
    · rw [if_pos h2]
      obtain ⟨b1, st1, hrun⟩ := go_to_netsuite_no_err env st
      rw [hrun]
      cases b1
      · exact ⟨false, st1, rfl⟩
      · dsimp only
        by_cases h3 : t = .NETSUITE_HOME_PAGE
        · simp only [h3, if_pos]
          exact ⟨true, st1, rfl⟩
        · rw [if_neg h3]
          exact from_ns_home_no_err env t st1
    · rw [if_neg h2]
      exact ⟨false, st, rfl⟩

/-- The login handler never lets an exception escape: its `try/except`
converts every failure — including failures of the recursive continuation —
to `False` (source lines 205-207). -/
theorem handle_login_no_err (env : Env)
    (navRec : PageState → PageState → St → NavRes (Option Nat))
    (t : PageState) (st : St) :
    ∃ b st', handleLoginWith env navRec t st = (.ok b, st') := by
  unfold handleLoginWith loginContinuationWith driverCall
  repeat' split
  all_goals exact ⟨_, _, rfl⟩

/-- The subpage handler's NetSuite-home branch never lets an exception
escape, at any fuel. -/
theorem subpage_ns_no_err (env : Env) (fuel : Nat) (st : St) :
    ∃ b st', navigate_from_netsuite_subpage env fuel .NETSUITE_HOME_PAGE st =
      (.ok b, st') := by
  unfold navigate_from_netsuite_subpage
  rcases hg : get_current_page st with ⟨cur, st1⟩
  simp only [hg]
  by_cases h1 : cur = .NETSUITE_HOME_PAGE
  · simp only [h1, if_pos]
    exact ⟨true, st1, rfl⟩
  · rw [if_neg h1,
      if_neg (show ¬(PageState.NETSUITE_HOME_PAGE = .QT_HOME_PAGE) by decide)]
    simp only [if_true]
    unfold clickC waitForPageLoadC driverCall
    repeat' split
    all_goals exact ⟨_, _, rfl⟩

/-- The subpage handler never lets an exception escape when given at least
one unit of fuel. -/
theorem subpage_no_err (env : Env) (fuel : Nat) (t : PageState) (st : St) :
    ∃ b st', navigate_from_netsuite_subpage env (fuel + 1) t st =
      (.ok b, st') := by
  unfold navigate_from_netsuite_subpage
  rcases hg : get_current_page st with ⟨cur, st1⟩
  simp only [hg]
  by_cases h1 : cur = t
  · simp only [h1, if_pos]
    exact ⟨true, st1, rfl⟩
  · rw [if_neg h1]
    by_cases h2 : t = .QT_HOME_PAGE
    · simp only [h2, if_pos]
      cases hq : st1.sess.page_qtest_portal with
      | some pid => exact ⟨true, _, rfl⟩
      | none => exact ⟨false, st1, rfl⟩
    · rw [if_neg h2]
      by_cases h3 : t = .NETSUITE_HOME_PAGE
      · simp only [h3, if_pos]
        unfold clickC waitForPageLoadC driverCall
        repeat' split
        all_goals exact ⟨_, _, rfl⟩
      · rw [if_neg h3]
        by_cases h4 : t = .TIME_TRACKING_PAGE ∨ t = .WEEKLY_SHEET_PAGE
        · rw [if_pos h4]
          obtain ⟨b1, st2, hrun⟩ := subpage_ns_no_err env fuel st1
          rw [hrun]
          cases b1
          · exact ⟨false, st2, rfl⟩
          · dsimp only
            exact from_ns_home_no_err env t st2
        · rw [if_neg h4]
          exact ⟨false, st1, rfl⟩

/-- From any classified non-`UNKNOWN` state and fuel at least two,
`_navigate_from_to` never lets an exception escape. -/
theorem navigate_from_to_no_err (env : Env) (fuel : Nat) (f t : PageState)
    (st : St) (hf : f ≠ .UNKNOWN) :
    ∃ r st', navigate_from_to env (fuel + 2) f t st = (.ok r, st') := by
  cases f with
  | UNKNOWN => exact absurd rfl hf
  | LOGIN_PAGE =>
    obtain ⟨b, st', hrun⟩ := handle_login_no_err env
      (fun f2 t2 s2 => navigate_from_to env (fuel + 1) f2 t2 s2) t st
    refine ⟨st'.sess.current_page, st', ?_⟩
    unfold navigate_from_to
    simp only [hrun, dropBool]
  | QT_HOME_PAGE =>
    obtain ⟨b, st', hrun⟩ := from_qt_home_no_err env t st
    refine ⟨st'.sess.current_page, st', ?_⟩
    unfold navigate_from_to
    simp only [hrun, dropBool]
  | NETSUITE_HOME_PAGE =>
    obtain ⟨b, st', hrun⟩ := from_ns_home_no_err env t st
    refine ⟨st'.sess.current_page, st', ?_⟩
    unfold navigate_from_to
    simp only [hrun, dropBool]
  | TIME_TRACKING_PAGE =>
    obtain ⟨b, st', hrun⟩ := subpage_no_err env fuel t st
    refine ⟨st'.sess.current_page, st', ?_⟩
    unfold navigate_from_to
    simp only [hrun, dropBool]
  | WEEKLY_SHEET_PAGE =>
    obtain ⟨b, st', hrun⟩ := subpage_no_err env fuel t st
    refine ⟨st'.sess.current_page, st', ?_⟩
    unfold navigate_from_to
    simp only [hrun, dropBool]

/-- C3 (amended): hop failures are not surfaced uniformly.  From every
classified state other than `UNKNOWN`, `_navigate_from_to` never lets an
exception escape — wait timeouts, missing elements, missing cached
references and undefined transitions are caught (or returned as `False`)
inside the handlers and discarded, and `go_to_page` returns the current
page handle as if navigation had succeeded.  Only failures raised on the
`UNKNOWN`-resolution path propagate to `go_to_page`'s catch, which surfaces
them to the caller as a `None` return. -/
theorem error_surfacing_c3 :
    (∀ (env : Env) (fuel : Nat) (f t : PageState) (st : St), f ≠ .UNKNOWN →
      ∃ r st', navigate_from_to env (fuel + 2) f t st = (.ok r, st')) ∧
    (∀ (env : Env) (fuel : Nat) (t : PageState) (w : World) (s : NavSession)
       (p : Pg) (w1 : World),
      classifyWorld w = .UNKNOWN → t ≠ .UNKNOWN →
      w.pages.head? = some p →
      env 0 w (.navigate p.id qt_home_target_url) = some w1 →
      env 1 w1 (.waitForUrlChange (some p.id)
        [qt_home_url_pattern, login_page_url_pattern] 10) = none →
      (runGoToPage env (fuel + 1) t w s).1 = .ok none) := by
  constructor
  · intro env fuel f t st hf
    exact navigate_from_to_no_err env fuel f t st hf
  · intro env fuel t w s p w1 hcls ht hhead henv hwait
    unfold runGoToPage go_to_page
    simp only [get_current_page_eq, hcls]
    rw [if_neg (fun h => ht h.symm)]
    unfold navigate_from_to navigate_to_qt_home
    simp only [hhead]
    unfold navigate_to_qt_home_from navigateC waitForPageLoadC driverCall
    simp only [henv, hwait, Nat.reduceAdd]

/-- Counterexample for C3 as stated: from a time-tracking page with no
cached portal reference, requesting the portal home hits the
missing-cached-reference failure (source lines 319-321), which is logged
and converted to `False`; `go_to_page` performs no driver action and
returns the current page handle — the failure never reaches the caller as
a structured failure. -/
theorem error_surfacing_c3_counterexample :
    (runGoToPage envNone 5 .QT_HOME_PAGE wTT s0).1 = .ok (some 5) ∧
    (runGoToPage envNone 5 .QT_HOME_PAGE wTT s0).2.trace = [] := by
  exact ⟨rfl, rfl⟩

/-- Witness for C3 (amended): a swallowed undefined transition from
NetSuite home, and a surfaced resolution-wait failure from the unknown
state. -/
theorem error_surfacing_c3_witness :
    (∃ r st', navigate_from_to envNone 2 .NETSUITE_HOME_PAGE .QT_HOME_PAGE
      ⟨wNS, s0, [], 0⟩ = (.ok r, st')) ∧
    (runGoToPage env3 5 .TIME_TRACKING_PAGE wUnk s0).1 = .ok none := by
  constructor
  · exact error_surfacing_c3.1 envNone 0 .NETSUITE_HOME_PAGE .QT_HOME_PAGE
      ⟨wNS, s0, [], 0⟩ (by decide)
  · exact error_surfacing_c3.2 env3 4 .TIME_TRACKING_PAGE wUnk s0
      ⟨3, "mystery://nowhere"⟩ wMystery (by decide) (by decide) (by decide)
      rfl rfl

end NetsuiteNav
